import Mathlib

/-! The MQTT-SN command-line publishing client `mqtt-sn-pub`.

A shallow embedding of `src/mqtt-sn-pub.c` (`parse_opts` and `main`) and the
properties of its option validation and of the packet exchange it drives.

The program talks to the outside through the calls of the MQTT-SN library
(`mqtt_sn_send_*`, `mqtt_sn_receive_*`), `fprintf(stderr, ..)`, `sleep`,
`close` and `exit`.  A run is modelled by the list of these calls, in order
(`Run.trace`), and by the way the process ends (`Run.outcome`).  What the
network answers is an input of the model: `Env.recv n` is what the receive
call number `n` of the run gets.
-/

namespace MqttSnPub

/-! ## Data -/

/-- One byte of a C string. -/
abbrev Byte := Fin 256

/-- The bytes of a NUL-terminated C string, the terminator left out (so that
`strlen` is the length of the list); a `char *` that may be NULL is an
`Option CString`. -/
abbrev CString := List Byte

/-- Conversion of a C `int` to `int8_t`: reduction modulo 2^8 to the range
-128 .. 127, as the compilers define it. -/
def int8_t (v : Int) : Int := (v + 128) % 256 - 128

/-- Conversion of a C `int` to `uint16_t` (reduction modulo 2^16). -/
def uint16_t (v : Int) : Nat := (v % 65536).toNat

/-- Value of a plain `char` holding byte `b`, promoted to `int`; plain `char`
is signed or unsigned depending on the platform. -/
def char_to_int (char_signed : Bool) (b : Byte) : Int :=
  if char_signed && decide (128 ≤ b.val) then (b.val : Int) - 256 else (b.val : Int)

/-- Modelled from the spec: the message type codes `MQTT_SN_TYPE_*` of
mqtt-sn.h, which is not among the sources; the packet kinds are the ones the
spec names, and `main` only compares the type of a received packet with them. -/
inductive PacketType
  | MQTT_SN_TYPE_CONNECT
  | MQTT_SN_TYPE_CONNACK
  | MQTT_SN_TYPE_WILLTOPICREQ
  | MQTT_SN_TYPE_WILLTOPIC
  | MQTT_SN_TYPE_WILLMSGREQ
  | MQTT_SN_TYPE_WILLMSG
  | MQTT_SN_TYPE_REGISTER
  | MQTT_SN_TYPE_REGACK
  | MQTT_SN_TYPE_PUBLISH
  | MQTT_SN_TYPE_PUBACK
  | MQTT_SN_TYPE_DISCONNECT
  deriving DecidableEq, Repr

/-- Modelled from the spec: the topic id kinds `MQTT_SN_TOPIC_TYPE_*` of
mqtt-sn.h, which is not among the sources (spec section 3, `idKind`). -/
inductive TopicType
  | MQTT_SN_TOPIC_TYPE_NORMAL
  | MQTT_SN_TOPIC_TYPE_PREDEFINED
  | MQTT_SN_TOPIC_TYPE_SHORT
  deriving DecidableEq, Repr

/-- Modelled from the spec: the flag bits `MQTT_SN_FLAG_*` of mqtt-sn.h, which
is not among the sources; a flags byte is the set of the flags the spec names
(clean-session, has-will, retain, QoS-1). -/
structure Flags where
  clean : Bool := false
  will : Bool := false
  retain : Bool := false
  qos_1 : Bool := false
  deriving DecidableEq, Repr

/-- Bitwise or of two flag bytes. -/
def Flags.or (a b : Flags) : Flags :=
  { clean := a.clean || b.clean, will := a.will || b.will,
    retain := a.retain || b.retain, qos_1 := a.qos_1 || b.qos_1 }

instance : OrOp Flags := ⟨Flags.or⟩

/-- Modelled from the spec: the clean-session flag of mqtt-sn.h. -/
def MQTT_SN_FLAG_CLEAN : Flags := { clean := true }

/-- Modelled from the spec: the has-will flag of mqtt-sn.h. -/
def MQTT_SN_FLAG_WILL : Flags := { will := true }

/-- Modelled from the spec: the retain flag of mqtt-sn.h. -/
def MQTT_SN_FLAG_RETAIN : Flags := { retain := true }

/-- Modelled from the spec: the QoS-1 flag of mqtt-sn.h. -/
def MQTT_SN_FLAG_QOS_1 : Flags := { qos_1 := true }

/-- Modelled from the spec: a received packet (`connack_packet_t` and
`regack_packet_t` of mqtt-sn.h, which is not among the sources): its type
and, for a register acknowledgment, the topic id it carries. -/
structure Packet where
  type : PacketType
  topic_id : Nat := 0
  deriving DecidableEq, Repr

/-- The lines the program writes to standard error, one constructor for each
`fprintf(stderr, ..)` of `parse_opts` and `main`; `usage` stands for the whole
text printed by `usage()`. -/
inductive Msg
  /-- The text of `usage()`. -/
  | usage
  /-- Error: only QoS level 1, 0 or -1 is supported. -/
  | only_qos
  /-- Error: please provide either a topic id or a topic name, not both. -/
  | not_both
  /-- Error: either a pre-defined topic id or a short topic name must be given for QoS -1. -/
  | qos_n1_topic
  /-- Error: did not get MQTT_SN_TYPE_WILLMSGREQ. -/
  | no_willmsgreq
  /-- Error: did not get MQTT_SN_TYPE_WILLTOPICREQ. -/
  | no_willtopicreq
  /-- Warn: QoS 1 and send not acked -- retrying.. (%d/10) -/
  | retrying (retries : Nat)
  /-- Error: QoS 1 and send not acked, tried %d times -/
  | not_acked (retries : Nat)
  /-- Warn: Send required %d times, but was successful. -/
  | send_required (retries : Nat)
  /-- Warn: QoS >=0 and DISCONNECT not acked -/
  | disconnect_not_acked
  deriving DecidableEq, Repr

/-- The observable calls of a run. A receive call is recorded with what the
network handed to it. -/
inductive Event
  | set_debug (debug : Bool)
  | create_socket (host port : CString)
  | send_connect (client_id : Option CString) (flags : Flags) (keep_alive : Nat)
  | receive_connack (reply : Option Packet)
  | receive_packet (reply : Option Packet)
  | send_will_topic (topic : Option CString) (flags : Flags)
  | send_will_msg (msg : Option CString)
  | send_register (topic_name : Option CString)
  | receive_regack (reply : Option Packet)
  | send_publish (topic_id : Nat) (topic_id_type : TopicType)
      (data : Option CString) (qos : Int) (retain : Bool)
  | send_disconnect
  | sleep (seconds : Nat)
  | stderr (m : Msg)
  | close
  | cleanup
  deriving DecidableEq, Repr

/-- How the process ends. -/
inductive Outcome
  /-- A call of `exit(status)`. -/
  | exit (status : Int)
  /-- The `return status` of `main`. -/
  | ret (status : Int)
  /-- A read through a NULL pointer (`strlen(NULL)`). -/
  | fault
  deriving DecidableEq, Repr

/-- A finished run: the calls made, in order, and the way it ended. -/
structure Run where
  trace : List Event
  outcome : Outcome
  deriving DecidableEq, Repr

/-- The global variables of mqtt-sn-pub.c, with their initial values. -/
structure Globals where
  client_id : Option CString := none
  topic_name : Option CString := none
  message_data : Option CString := none
  t_topic_name : Option CString := none
  t_message_data : Option CString := none
  keep_alive : Nat := 1
  /-- The string 127.0.0.1 -/
  mqtt_sn_host : CString := [49, 50, 55, 46, 48, 46, 48, 46, 49]
  /-- The string 1883 -/
  mqtt_sn_port : CString := [49, 56, 56, 51]
  topic_id : Nat := 0
  topic_id_type : TopicType := TopicType.MQTT_SN_TOPIC_TYPE_NORMAL
  qos : Int := 0
  retain : Bool := false
  debug : Bool := false
  deriving DecidableEq, Repr

/-- One result of `getopt`: the option letter with `optarg`. For `-q` and `-T`
the argument is given as the `int` that `atoi(optarg)` returns. `unknown` is
the `?` that `getopt` returns for an unknown option or a missing argument. -/
inductive Opt
  | d
  | h (host : CString)
  | i (client_id : CString)
  | m (message : CString)
  | W (will_message : CString)
  | n
  | p (port : CString)
  | q (atoi : Int)
  | r
  | t (topic : CString)
  | w (will_topic : CString)
  | T (atoi : Int)
  | unknown
  deriving DecidableEq, Repr

/-- What lies outside the program: whether plain `char` is signed on the
platform, the value that `mqtt_sn_create_socket` returns, and the network.
`recv n` is what the receive call number `n` of the run (counted from 0) gets:
a packet, or `none` for the NULL of a timeout. The program is deterministic,
so a gateway whose answers depend on what it was sent is covered too: a
property that holds for every `recv` holds against every gateway. -/
structure Env where
  char_signed : Bool
  sock : Int
  recv : Nat → Option Packet

/-- The state of a run in progress: the global variables, the number of
receive calls made, and the calls made so far. -/
structure World where
  g : Globals
  nrecv : Nat
  trace : List Event

/-- A step of the program either goes on in a new state or ends the run. -/
abbrev Step (α : Type) := Except Run α

/-! ## parse_opts -/

/-- The function `usage()`: prints the usage text and calls `exit(-1)`. -/
def usage : Run := { trace := [Event.stderr Msg.usage], outcome := Outcome.exit (-1) }

/-- One iteration of the `getopt` loop of `parse_opts` (the `switch`). -/
def parse_opt (g : Globals) : Opt → Step Globals
  | Opt.d => .ok { g with debug := true }
  | Opt.h host => .ok { g with mqtt_sn_host := host }
  | Opt.i id => .ok { g with client_id := some id }
  | Opt.m msg => .ok { g with message_data := some msg }
  | Opt.W msg => .ok { g with t_message_data := some msg }
  | Opt.n => .ok { g with message_data := some [] }
  | Opt.p port => .ok { g with mqtt_sn_port := port }
  | Opt.q v => .ok { g with qos := int8_t v }
  | Opt.r => .ok { g with retain := true }
  | Opt.t topic => .ok { g with topic_name := some topic }
  | Opt.w topic => .ok { g with t_topic_name := some topic }
  | Opt.T v => .ok { g with topic_id := uint16_t v }
  | Opt.unknown => .error usage

/-- The `while ((ch = getopt(..)) != -1) switch (ch)` loop of `parse_opts`. -/
def getopt_loop (g : Globals) : List Opt → Step Globals
  | [] => .ok g
  | o :: rest =>
    match parse_opt g o with
    | .ok g1 => getopt_loop g1 rest
    | .error r => .error r

/-- The checks of `parse_opts` that follow the option loop (lines 133-153). -/
def check_opts (g : Globals) : Step Globals :=
  -- Missing Parameter?
  if !(g.topic_name.isSome || g.topic_id != 0) || !g.message_data.isSome then
    .error usage
  else if g.qos != -1 && g.qos != 0 && g.qos != 1 then
    .error { trace := [Event.stderr Msg.only_qos], outcome := Outcome.exit (-1) }
  -- Both topic name and topic id?
  else if g.topic_name.isSome && g.topic_id != 0 then
    .error { trace := [Event.stderr Msg.not_both], outcome := Outcome.exit (-1) }
  -- Check topic is valid for QoS level -1
  else if g.qos == -1 && g.topic_id == 0 then
    match g.topic_name with
    | none => .error { trace := [], outcome := Outcome.fault }
    | some name =>
      if name.length != 2 then
        .error { trace := [Event.stderr Msg.qos_n1_topic], outcome := Outcome.exit (-1) }
      else .ok g
  else .ok g

/-- The function `parse_opts`, on the sequence of results of `getopt`: the
values of the global variables when it returns, or the run it ends. -/
def parse_opts (opts : List Opt) : Step Globals :=
  match getopt_loop {} opts with
  | .ok g => check_opts g
  | .error r => .error r

/-! ## The library calls -/

/-- Record a call. -/
def say (e : Event) (w : World) : World := { w with trace := w.trace ++ [e] }

/-- End the run with a message on standard error and `exit(status)`. -/
def die (m : Msg) (status : Int) (w : World) : Run :=
  { trace := w.trace ++ [Event.stderr m], outcome := Outcome.exit status }

/-- The test `p != NULL && p->type == t`. -/
def has_type (p : Option Packet) (t : PacketType) : Bool :=
  match p with
  | some pk => pk.type == t
  | none => false

/-- Modelled from the spec: `mqtt_sn_receive_packet` of mqtt-sn.c, which is not
among the sources. Section 6: `receivePacket(conn) -> Packet | null`; the call
returns the next answer of the network. -/
def mqtt_sn_receive_packet (env : Env) (w : World) : Option Packet × World :=
  (env.recv w.nrecv,
   { w with nrecv := w.nrecv + 1,
            trace := w.trace ++ [Event.receive_packet (env.recv w.nrecv)] })

/-- Modelled from the spec: `mqtt_sn_receive_connack` of mqtt-sn.c, which is
not among the sources. Section 4.2: block for a CONNACK acknowledgment; any
non-acknowledgment response or absence of response is a fatal error (the
process ends with a non-zero status, here -1). -/
def mqtt_sn_receive_connack (env : Env) (w : World) : Step World :=
  let p := env.recv w.nrecv
  let w1 := { w with nrecv := w.nrecv + 1, trace := w.trace ++ [Event.receive_connack p] }
  if has_type p PacketType.MQTT_SN_TYPE_CONNACK then .ok w1
  else .error { trace := w1.trace, outcome := Outcome.exit (-1) }

/-- Modelled from the spec: `mqtt_sn_receive_regack` of mqtt-sn.c, which is
not among the sources. Sections 4.2 and 6: block for the register
acknowledgment and return the topic id it carries, or fail fatally (the
process ends with a non-zero status, here -1). -/
def mqtt_sn_receive_regack (env : Env) (w : World) : Step (Nat × World) :=
  let p := env.recv w.nrecv
  let w1 := { w with nrecv := w.nrecv + 1, trace := w.trace ++ [Event.receive_regack p] }
  match p with
  | some pk =>
    if pk.type == PacketType.MQTT_SN_TYPE_REGACK then .ok (pk.topic_id % 65536, w1)
    else .error { trace := w1.trace, outcome := Outcome.exit (-1) }
  | none => .error { trace := w1.trace, outcome := Outcome.exit (-1) }

/-- The call `mqtt_sn_send_publish(sock, topic_id, topic_id_type, message_data,
qos, retain)` on the current values of the global variables. -/
def mqtt_sn_send_publish (w : World) : World :=
  say (Event.send_publish w.g.topic_id w.g.topic_id_type w.g.message_data w.g.qos w.g.retain) w

/-! ## main -/

/-- Connect to the gateway (lines 169-191 of `main`). -/
def connect (env : Env) (w : World) : Step World :=
  if w.g.qos ≥ 0 then
    if w.g.qos == 0 then
      let w := say (Event.send_connect w.g.client_id MQTT_SN_FLAG_CLEAN w.g.keep_alive) w
      mqtt_sn_receive_connack env w
    else if w.g.qos == 1 then
      let w := say (Event.send_connect w.g.client_id
        (MQTT_SN_FLAG_CLEAN ||| MQTT_SN_FLAG_WILL) w.g.keep_alive) w
      let (p, w) := mqtt_sn_receive_packet env w
      if has_type p PacketType.MQTT_SN_TYPE_WILLTOPICREQ then
        let w := say (Event.send_will_topic w.g.t_topic_name
          (MQTT_SN_FLAG_QOS_1 ||| MQTT_SN_FLAG_RETAIN)) w
        let (p, w) := mqtt_sn_receive_packet env w
        if has_type p PacketType.MQTT_SN_TYPE_WILLMSGREQ then
          let w := say (Event.send_will_msg w.g.t_message_data) w
          mqtt_sn_receive_connack env w
        else
          .error (die Msg.no_willmsgreq (-1) w)
      else
        .error (die Msg.no_willtopicreq (-1) w)
    else .ok w
  else .ok w

/-- The statement `topic_id = (topic_name[0] << 8) + topic_name[1]`: the two
chars are promoted to `int`, the shift multiplies by 2^8, and the sum is
stored in the `uint16_t`. -/
def short_topic_id (char_signed : Bool) (name : CString) : Nat :=
  uint16_t (char_to_int char_signed (name.getD 0 0) * 2 ^ 8
            + char_to_int char_signed (name.getD 1 0))

/-- Find the topic id to publish to (lines 192-204 of `main`). -/
def resolve_topic (env : Env) (w : World) : Step World :=
  if w.g.topic_id != 0 then
    -- Use pre-defined topic ID
    .ok { w with g := { w.g with topic_id_type := TopicType.MQTT_SN_TOPIC_TYPE_PREDEFINED } }
  else
    match w.g.topic_name with
    | none => .error { trace := w.trace, outcome := Outcome.fault }
    | some name =>
      if name.length == 2 then
        -- Convert the 2 character topic name into a 2 byte topic id
        .ok { w with g := { w.g with topic_id := short_topic_id env.char_signed name,
                                     topic_id_type := TopicType.MQTT_SN_TOPIC_TYPE_SHORT } }
      else if w.g.qos ≥ 0 then
        -- Register the topic name
        let w := say (Event.send_register w.g.topic_name) w
        match mqtt_sn_receive_regack env w with
        | .ok (id, w) =>
          .ok { w with g := { w.g with topic_id := id,
                                       topic_id_type := TopicType.MQTT_SN_TOPIC_TYPE_NORMAL } }
        | .error r => .error r
      else .ok w

/-- The `while (1)` loop of the QoS 1 publish (lines 210-222), entered with the
current value of `retries`; it returns the value of `retries` at the `break`. -/
def publish_loop (env : Env) (retries : Nat) (w : World) : Step (Nat × World) :=
  let (p, w) := mqtt_sn_receive_packet env w
  if has_type p PacketType.MQTT_SN_TYPE_PUBACK then
    .ok (retries, w)
  else
    let w := say (Event.stderr (Msg.retrying retries)) w
    if retries > 10 then
      .error (die (Msg.not_acked (retries + 1)) (-1) w)
    else
      let w := say (Event.sleep 1) w
      let w := mqtt_sn_send_publish w
      publish_loop env (retries + 1) w
termination_by 11 - retries
decreasing_by omega

/-- Publish to the topic (lines 206-226 of `main`). -/
def publish (env : Env) (w : World) : Step World :=
  let w := mqtt_sn_send_publish w
  if w.g.qos == 1 then
    match publish_loop env 0 w with
    | .ok (retries, w) =>
      if retries != 0 then .ok (say (Event.stderr (Msg.send_required retries)) w)
      else .ok w
    | .error r => .error r
  else .ok w

/-- Finally, disconnect (lines 227-235 of `main`). -/
def disconnect (env : Env) (w : World) : Step World :=
  if w.g.qos ≥ 0 then
    let w := say Event.send_disconnect w
    let (p, w) := mqtt_sn_receive_packet env w
    if has_type p PacketType.MQTT_SN_TYPE_DISCONNECT then
      -- disconnect acked ok
      .ok w
    else
      .ok (say (Event.stderr Msg.disconnect_not_acked) w)
  else .ok w

/-- The state of the run when the socket has been created (line 166). -/
def start (g : Globals) : World :=
  { g := g, nrecv := 0,
    trace := [Event.set_debug g.debug, Event.create_socket g.mqtt_sn_host g.mqtt_sn_port] }

/-- The body of `if (sock) { .. }` up to the `close` (lines 168-235). -/
def session (env : Env) (w : World) : Step World :=
  match connect env w with
  | .error r => .error r
  | .ok w1 =>
    match resolve_topic env w1 with
    | .error r => .error r
    | .ok w2 =>
      match publish env w2 with
      | .error r => .error r
      | .ok w3 => disconnect env w3

/-- The function `main`, on the results of `getopt` for its command line. -/
def main (env : Env) (opts : List Opt) : Run :=
  match parse_opts opts with
  | .error r => r
  | .ok g =>
    if env.sock ≠ 0 then
      match session env (start g) with
      | .error r => r
      | .ok w => { trace := w.trace ++ [Event.close, Event.cleanup], outcome := Outcome.ret 0 }
    else
      { trace := (start g).trace ++ [Event.cleanup], outcome := Outcome.ret 0 }

/-! ## Reading a trace -/

/-- A call of `mqtt_sn_send_publish`. -/
def is_publish : Event → Bool
  | .send_publish .. => true
  | _ => false

/-- A call that sends a packet (`mqtt_sn_send_*`). -/
def is_send : Event → Bool
  | .send_connect .. => true
  | .send_will_topic .. => true
  | .send_will_msg .. => true
  | .send_register .. => true
  | .send_publish .. => true
  | .send_disconnect => true
  | _ => false

/-- A call that waits for a packet (`mqtt_sn_receive_*`). -/
def is_receive : Event → Bool
  | .receive_connack .. => true
  | .receive_packet .. => true
  | .receive_regack .. => true
  | _ => false

/-- A call of `mqtt_sn_send_connect`. -/
def is_send_connect : Event → Bool
  | .send_connect .. => true
  | _ => false

/-- A call of `mqtt_sn_send_will_topic`. -/
def is_send_will_topic : Event → Bool
  | .send_will_topic .. => true
  | _ => false

/-- A call of `mqtt_sn_send_will_msg`. -/
def is_send_will_msg : Event → Bool
  | .send_will_msg .. => true
  | _ => false

/-- A call of `mqtt_sn_receive_connack`. -/
def is_receive_connack : Event → Bool
  | .receive_connack .. => true
  | _ => false

/-- A call of `mqtt_sn_send_register`. -/
def is_send_register : Event → Bool
  | .send_register .. => true
  | _ => false

/-- A call of `mqtt_sn_receive_packet` that returned a packet of type `t`. -/
def received (t : PacketType) : Event → Bool
  | .receive_packet reply => has_type reply t
  | _ => false

/-- Every event of the trace that satisfies `q` comes after an event that
satisfies `p`. -/
def only_after (p q : Event → Bool) (tr : List Event) : Prop :=
  ∀ pre e post, tr = pre ++ e :: post → q e = true → ∃ x ∈ pre, p x = true

/-! ## The events of each step -/

/-- The events that the connect step can add to the trace. -/
def connect_event : Event → Bool
  | .send_connect .. => true
  | .receive_packet .. => true
  | .receive_connack .. => true
  | .send_will_topic .. => true
  | .send_will_msg .. => true
  | .stderr .no_willmsgreq => true
  | .stderr .no_willtopicreq => true
  | _ => false

/-- The events that the topic resolution can add to the trace. -/
def resolve_event : Event → Bool
  | .send_register .. => true
  | .receive_regack .. => true
  | _ => false

/-- The events that the publish step can add to the trace. -/
def publish_event : Event → Bool
  | .send_publish .. => true
  | .receive_packet .. => true
  | .sleep .. => true
  | .stderr (.retrying _) => true
  | .stderr (.not_acked _) => true
  | .stderr (.send_required _) => true
  | _ => false

/-- The events of the steps of `main` that follow the connect step. -/
def after_connect_event : Event → Bool
  | .send_register .. => true
  | .receive_regack .. => true
  | .send_publish .. => true
  | .receive_packet .. => true
  | .sleep .. => true
  | .stderr (.retrying _) => true
  | .stderr (.not_acked _) => true
  | .stderr (.send_required _) => true
  | .send_disconnect => true
  | .stderr .disconnect_not_acked => true
  | .close => true
  | .cleanup => true
  | _ => false

/-- The PUBLISH call made with the global variables `g`. -/
def publish_call (g : Globals) : Event :=
  Event.send_publish g.topic_id g.topic_id_type g.message_data g.qos g.retain

/-- The events of `k` rounds of the publish loop in which the receive does not
return a PUBACK: the receive number `n`, the warning with the value `r` of
`retries`, the sleep and the PUBLISH sent again, and so on. -/
def retry_events (env : Env) (g : Globals) : Nat → Nat → Nat → List Event
  | 0, _, _ => []
  | k + 1, r, n =>
    [Event.receive_packet (env.recv n), Event.stderr (Msg.retrying r), Event.sleep 1,
      publish_call g] ++ retry_events env g k (r + 1) (n + 1)

/-! ## Example inputs -/

/-- The command line `-q 1 -t ab -m x -w ab -W x`. -/
def qos1_opts : List Opt :=
  [Opt.q 1, Opt.t [97, 98], Opt.m [120], Opt.w [97, 98], Opt.W [120]]

/-- The configuration that `parse_opts` returns for `qos1_opts`. -/
def qos1_globals : Globals :=
  { qos := 1, topic_name := some [97, 98], message_data := some [120],
    t_topic_name := some [97, 98], t_message_data := some [120] }

/-- A gateway that completes the will handshake and then lets `k` receives
time out before it acknowledges the publish and the disconnect. -/
def gateway_recv (k : Nat) (n : Nat) : Option Packet :=
  if n = 0 then some { type := PacketType.MQTT_SN_TYPE_WILLTOPICREQ }
  else if n = 1 then some { type := PacketType.MQTT_SN_TYPE_WILLMSGREQ }
  else if n = 2 then some { type := PacketType.MQTT_SN_TYPE_CONNACK }
  else if n < 3 + k then none
  else if n = 3 + k then some { type := PacketType.MQTT_SN_TYPE_PUBACK }
  else some { type := PacketType.MQTT_SN_TYPE_DISCONNECT }

/-- A gateway that completes the will handshake and is silent afterwards. -/
def silent_recv (n : Nat) : Option Packet :=
  if n = 0 then some { type := PacketType.MQTT_SN_TYPE_WILLTOPICREQ }
  else if n = 1 then some { type := PacketType.MQTT_SN_TYPE_WILLMSGREQ }
  else if n = 2 then some { type := PacketType.MQTT_SN_TYPE_CONNACK }
  else none

/-- A gateway that never answers. -/
def no_recv (_ : Nat) : Option Packet := none

/-- A gateway that asks for the will topic and is silent afterwards. -/
def willtopicreq_only_recv (n : Nat) : Option Packet :=
  if n = 0 then some { type := PacketType.MQTT_SN_TYPE_WILLTOPICREQ } else none

/-- A gateway that acknowledges the connection and is silent afterwards. -/
def connack_only_recv (n : Nat) : Option Packet :=
  if n = 0 then some { type := PacketType.MQTT_SN_TYPE_CONNACK } else none

/-- A run environment on a platform with signed `char`, with socket 3 and the
given answers of the network. -/
def env_of (recv : Nat → Option Packet) : Env :=
  { char_signed := true, sock := 3, recv := recv }

/-- A gateway that acknowledges the connection, then a registration with the
topic id 7, and is silent afterwards. -/
def register_recv (n : Nat) : Option Packet :=
  if n = 0 then some { type := PacketType.MQTT_SN_TYPE_CONNACK }
  else if n = 1 then some { type := PacketType.MQTT_SN_TYPE_REGACK, topic_id := 7 }
  else none

/-! ## Command lines without some options -/

/-- The command line without its `-w` and `-W` options. -/
def without_will (opts : List Opt) : List Opt :=
  opts.filter (fun o => match o with
    | .w _ => false
    | .W _ => false
    | _ => true)

/-- The command line without its `-T` options. -/
def without_T (opts : List Opt) : List Opt :=
  opts.filter (fun o => match o with
    | .T _ => false
    | _ => true)

/-- The configuration with the will topic and the will payload absent. -/
def erase_will (g : Globals) : Globals :=
  { g with t_topic_name := none, t_message_data := none }

/-- The value of `retries` that a retry warning of the publish loop shows. -/
def retrying_value : Event → Option Nat
  | .stderr (.retrying r) => some r
  | _ => none

/-! ## The steps of main -/

/-- When the connect step goes on, the global variables are unchanged and the
trace has grown by events of the connect step. -/
theorem connect_ok (env : Env) (w w1 : World) (h : connect env w = .ok w1) :
    w1.g = w.g ∧ ∃ evs, w1.trace = w.trace ++ evs ∧ ∀ e ∈ evs, connect_event e = true := by
  unfold connect at h
  simp only [mqtt_sn_receive_connack, mqtt_sn_receive_packet, say, die] at h
  split_ifs at h <;> simp at h <;> subst h <;> simp [connect_event]

/-- When the connect step ends the run, it does so with `exit(-1)` after events
of the connect step. -/
theorem connect_error (env : Env) (w : World) (r : Run) (h : connect env w = .error r) :
    r.outcome = Outcome.exit (-1) ∧
    ∃ evs, r.trace = w.trace ++ evs ∧ ∀ e ∈ evs, connect_event e = true := by
  unfold connect at h
  simp only [mqtt_sn_receive_connack, mqtt_sn_receive_packet, say, die] at h
  split_ifs at h <;> simp at h <;> subst h <;> simp [connect_event]

/-- When the topic resolution goes on, `qos`, the payload and `retain` are
unchanged and the trace has grown by events of the topic resolution. -/
theorem resolve_ok (env : Env) (w w1 : World) (h : resolve_topic env w = .ok w1) :
    w1.g.qos = w.g.qos ∧ w1.g.message_data = w.g.message_data ∧ w1.g.retain = w.g.retain ∧
    ∃ evs, w1.trace = w.trace ++ evs ∧ ∀ e ∈ evs, resolve_event e = true := by
  unfold resolve_topic at h
  simp only [mqtt_sn_receive_regack, say] at h
  split at h
  · simp at h; subst h; simp
  · split at h
    · simp at h
    · split_ifs at h
      · simp at h; subst h; simp
      · split at h
        · rename_i heq
          split at heq
          · split_ifs at heq
            · simp at heq; simp at h; subst h; obtain ⟨_, rfl⟩ := heq; simp [resolve_event]
          · simp at heq
        · simp at h
      · simp at h; subst h; simp

/-- The publish loop entered with `retries = r`, when `k` receives are not a
PUBACK and the next one is, with `r + k ≤ 11`: it leaves with `retries = r + k`
after `k` rounds and one more receive. -/
theorem publish_loop_acked (env : Env) :
    ∀ (k r : Nat) (w : World), r + k ≤ 11 →
      (∀ i, i < k → has_type (env.recv (w.nrecv + i)) PacketType.MQTT_SN_TYPE_PUBACK = false) →
      has_type (env.recv (w.nrecv + k)) PacketType.MQTT_SN_TYPE_PUBACK = true →
      publish_loop env r w = .ok (r + k,
        { g := w.g, nrecv := w.nrecv + k + 1,
          trace := w.trace ++ retry_events env w.g k r w.nrecv
            ++ [Event.receive_packet (env.recv (w.nrecv + k))] }) := by
  intro k
  induction k with
  | zero =>
    intro r w _ _ hack
    rw [publish_loop]
    simp only [mqtt_sn_receive_packet]
    simp at hack
    simp [hack, retry_events]
  | succ k ih =>
    intro r w hr hfail hack
    rw [publish_loop]
    simp only [mqtt_sn_receive_packet]
    have h0 := hfail 0 (by omega)
    simp at h0
    have hr10 : ¬ r > 10 := by omega
    simp only [h0, hr10, say, mqtt_sn_send_publish]
    simp only [Bool.false_eq_true, if_false]
    rw [ih (r + 1) _ (by omega)]
    · simp [retry_events, publish_call]
      have e : w.nrecv + 1 + k = w.nrecv + (k + 1) := by omega
      rw [e]
      exact ⟨by omega, rfl, rfl⟩
    · intro i hi
      have := hfail (i + 1) (by omega)
      simpa [Nat.add_assoc, Nat.add_comm 1 i] using this
    · simpa [Nat.add_assoc, Nat.add_comm 1 k] using hack

/-- The publish loop entered with `retries = r = 11 - k`, when no receive is a
PUBACK: it runs `k` rounds, receives once more, and ends the run with
`exit(-1)`. -/
theorem publish_loop_never (env : Env) :
    ∀ (k r : Nat) (w : World), r + k = 11 →
      (∀ i, i ≤ k → has_type (env.recv (w.nrecv + i)) PacketType.MQTT_SN_TYPE_PUBACK = false) →
      publish_loop env r w = .error
        { trace := w.trace ++ retry_events env w.g k r w.nrecv
            ++ [Event.receive_packet (env.recv (w.nrecv + k)),
                Event.stderr (Msg.retrying 11), Event.stderr (Msg.not_acked 12)],
          outcome := Outcome.exit (-1) } := by
  intro k
  induction k with
  | zero =>
    intro r w hr hfail
    rw [publish_loop]
    simp only [mqtt_sn_receive_packet]
    have h0 := hfail 0 (by omega)
    simp at h0
    have hr11 : r = 11 := by omega
    subst hr11
    simp [h0, retry_events, say, die]
  | succ k ih =>
    intro r w hr hfail
    rw [publish_loop]
    simp only [mqtt_sn_receive_packet]
    have h0 := hfail 0 (by omega)
    simp at h0
    have hr10 : ¬ r > 10 := by omega
    simp only [h0, hr10, say, mqtt_sn_send_publish]
    simp only [Bool.false_eq_true, if_false]
    rw [ih (r + 1) _ (by omega)]
    · simp [retry_events, publish_call]
      have e : w.nrecv + 1 + k = w.nrecv + (k + 1) := by omega
      rw [e]
    · intro i hi
      have := hfail (i + 1) (by omega)
      simpa [Nat.add_assoc, Nat.add_comm 1 i] using this

/-- Whatever the network answers, the publish loop ends, and it adds only events
of the publish step to the trace; when it ends the run it does so with
`exit(-1)`. -/
theorem publish_loop_events (env : Env) :
    ∀ (k r : Nat) (w : World), 11 - r = k →
      ∃ evs, (∀ e ∈ evs, publish_event e = true) ∧
        match publish_loop env r w with
        | .ok (_, w1) => w1.g = w.g ∧ w1.trace = w.trace ++ evs
        | .error run => run.outcome = Outcome.exit (-1) ∧ run.trace = w.trace ++ evs := by
  intro k
  induction k with
  | zero =>
    intro r w hr
    rw [publish_loop]
    simp only [mqtt_sn_receive_packet]
    have hr10 : r > 10 := by omega
    by_cases h : has_type (env.recv w.nrecv) PacketType.MQTT_SN_TYPE_PUBACK = true
    · exact ⟨[Event.receive_packet (env.recv w.nrecv)], by simp [publish_event], by simp [h]⟩
    · exact ⟨[Event.receive_packet (env.recv w.nrecv), Event.stderr (Msg.retrying r),
        Event.stderr (Msg.not_acked (r + 1))], by simp [publish_event],
        by simp [h, hr10, say, die]⟩
  | succ k ih =>
    intro r w hr
    rw [publish_loop]
    simp only [mqtt_sn_receive_packet]
    have hr10 : ¬ r > 10 := by omega
    by_cases h : has_type (env.recv w.nrecv) PacketType.MQTT_SN_TYPE_PUBACK = true
    · exact ⟨[Event.receive_packet (env.recv w.nrecv)], by simp [publish_event], by simp [h]⟩
    · simp only [h, hr10, say, mqtt_sn_send_publish]
      simp only [Bool.false_eq_true, if_false]
      obtain ⟨evs, hevs, hm⟩ := ih (r + 1)
        { g := w.g, nrecv := w.nrecv + 1,
          trace := w.trace ++ [Event.receive_packet (env.recv w.nrecv)]
            ++ [Event.stderr (Msg.retrying r)] ++ [Event.sleep 1] ++ [publish_call w.g] } (by omega)
      refine ⟨[Event.receive_packet (env.recv w.nrecv), Event.stderr (Msg.retrying r),
        Event.sleep 1, publish_call w.g] ++ evs, ?_, ?_⟩
      · intro e he
        simp at he
        rcases he with rfl | rfl | rfl | rfl | he
        · simp [publish_event]
        · simp [publish_event]
        · simp [publish_event]
        · simp [publish_event, publish_call]
        · exact hevs e he
      · simp only [publish_call] at hm ⊢
        split at hm <;> rename_i heq <;> simp [heq] at hm ⊢ <;> simpa using hm

/-- The PUBLISH calls among the events of `k` rounds: `k` times the same call. -/
theorem retry_events_publish (env : Env) (g : Globals) :
    ∀ (k r n : Nat), (retry_events env g k r n).filter is_publish
      = List.replicate k (publish_call g) := by
  intro k
  induction k with
  | zero => intro r n; simp [retry_events]
  | succ k ih =>
    intro r n
    simp [retry_events, List.filter_cons, is_publish, publish_call, ih, List.replicate_succ]

/-- The events of the rounds of the publish loop are receives, retry warnings,
sleeps and the PUBLISH call. -/
theorem retry_events_kind (env : Env) (g : Globals) :
    ∀ (k r n : Nat) (e : Event), e ∈ retry_events env g k r n →
      (∃ p, e = Event.receive_packet p) ∨ (∃ m, e = Event.stderr (Msg.retrying m))
        ∨ e = Event.sleep 1 ∨ e = publish_call g := by
  intro k
  induction k with
  | zero => intro r n e he; simp [retry_events] at he
  | succ k ih =>
    intro r n e he
    simp only [retry_events, List.mem_append, List.mem_cons, List.mem_singleton,
      List.not_mem_nil, or_false] at he
    rcases he with (rfl | rfl | rfl | rfl) | he
    · exact Or.inl ⟨_, rfl⟩
    · exact Or.inr (Or.inl ⟨_, rfl⟩)
    · exact Or.inr (Or.inr (Or.inl rfl))
    · exact Or.inr (Or.inr (Or.inr rfl))
    · exact ih _ _ e he

/-- The publish step at QoS 1 when `k ≤ 11` receives are not a PUBACK and the
next one is. -/
theorem publish_acked (env : Env) (k : Nat) (w : World) (hq : w.g.qos = 1) (hk : k ≤ 11)
    (hfail : ∀ i, i < k →
      has_type (env.recv (w.nrecv + i)) PacketType.MQTT_SN_TYPE_PUBACK = false)
    (hack : has_type (env.recv (w.nrecv + k)) PacketType.MQTT_SN_TYPE_PUBACK = true) :
    publish env w = .ok
      { g := w.g, nrecv := w.nrecv + k + 1,
        trace := w.trace ++ [publish_call w.g] ++ retry_events env w.g k 0 w.nrecv
          ++ [Event.receive_packet (env.recv (w.nrecv + k))]
          ++ (if k = 0 then [] else [Event.stderr (Msg.send_required k)]) } := by
  unfold publish
  have h := publish_loop_acked env k 0 (mqtt_sn_send_publish w) (by omega) hfail hack
  simp only [mqtt_sn_send_publish, say] at h ⊢
  rw [h]
  by_cases hk0 : k = 0
  · simp [hq, hk0, publish_call]
  · simp [hq, hk0, say, publish_call]

/-- The publish step at QoS 1 when no receive is a PUBACK. -/
theorem publish_never (env : Env) (w : World) (hq : w.g.qos = 1)
    (hfail : ∀ i, has_type (env.recv (w.nrecv + i)) PacketType.MQTT_SN_TYPE_PUBACK = false) :
    publish env w = .error
      { trace := w.trace ++ [publish_call w.g] ++ retry_events env w.g 11 0 w.nrecv
          ++ [Event.receive_packet (env.recv (w.nrecv + 11)),
              Event.stderr (Msg.retrying 11), Event.stderr (Msg.not_acked 12)],
        outcome := Outcome.exit (-1) } := by
  unfold publish
  have h := publish_loop_never env 11 0 (mqtt_sn_send_publish w) (by omega)
    (fun i _ => hfail i)
  simp only [mqtt_sn_send_publish, say] at h ⊢
  rw [h]
  simp [hq, publish_call]

/-- The publish step at a QoS other than 1: one PUBLISH, no receive. -/
theorem publish_other (env : Env) (w : World) (hq : w.g.qos ≠ 1) :
    publish env w = .ok { g := w.g, nrecv := w.nrecv, trace := w.trace ++ [publish_call w.g] } := by
  unfold publish
  simp [mqtt_sn_send_publish, say, hq, publish_call]

/-- When the publish step goes on, the global variables are unchanged and the
trace has grown by events of the publish step. -/
theorem publish_ok (env : Env) (w w1 : World) (h : publish env w = .ok w1) :
    w1.g = w.g ∧ ∃ evs, w1.trace = w.trace ++ evs ∧ ∀ e ∈ evs, publish_event e = true := by
  unfold publish at h
  obtain ⟨evs, hevs, hm⟩ := publish_loop_events env _ 0 (mqtt_sn_send_publish w) rfl
  simp only [mqtt_sn_send_publish, say] at h hm
  split_ifs at h with hq
  · split at h
    · rename_i retries w2 heq
      rw [heq] at hm
      simp only at hm
      have hpub : ∀ e ∈ [publish_call w.g] ++ evs, publish_event e = true := by
        intro e he
        simp at he
        rcases he with rfl | he
        · simp [publish_event, publish_call]
        · exact hevs e he
      split_ifs at h
      · simp at h; subst h
        refine ⟨hm.1, [publish_call w.g] ++ evs ++ [Event.stderr (Msg.send_required retries)],
          by simp [say, hm.2, publish_call], ?_⟩
        intro e he
        simp only [List.mem_append, List.mem_singleton] at he
        rcases he with he | rfl
        · exact hpub e (by simpa using he)
        · simp [publish_event]
      · simp at h; subst h
        exact ⟨hm.1, [publish_call w.g] ++ evs, by simp [hm.2, publish_call], hpub⟩
    · simp at h
  · simp at h; subst h
    exact ⟨rfl, [publish_call w.g], by simp [publish_call], by simp [publish_event, publish_call]⟩

/-- When the publish step ends the run, it does so with `exit(-1)` after events
of the publish step. -/
theorem publish_error (env : Env) (w : World) (r : Run) (h : publish env w = .error r) :
    r.outcome = Outcome.exit (-1) ∧
    ∃ evs, r.trace = w.trace ++ evs ∧ ∀ e ∈ evs, publish_event e = true := by
  unfold publish at h
  obtain ⟨evs, hevs, hm⟩ := publish_loop_events env _ 0 (mqtt_sn_send_publish w) rfl
  simp only [mqtt_sn_send_publish, say] at h hm
  split_ifs at h with hq
  · split at h
    · split_ifs at h
    · rename_i r2 heq
      rw [heq] at hm
      simp only at hm
      simp at h; subst h
      refine ⟨hm.1, [publish_call w.g] ++ evs, by simp [hm.2, publish_call], ?_⟩
      intro e he
      simp at he
      rcases he with rfl | he
      · simp [publish_event, publish_call]
      · exact hevs e he

/-- The disconnect step at `qos ≥ 0`. -/
theorem disconnect_eq (env : Env) (w : World) (hq : 0 ≤ w.g.qos) :
    disconnect env w = .ok
      { g := w.g, nrecv := w.nrecv + 1,
        trace := w.trace ++ [Event.send_disconnect, Event.receive_packet (env.recv w.nrecv)]
          ++ (if has_type (env.recv w.nrecv) PacketType.MQTT_SN_TYPE_DISCONNECT = true then []
              else [Event.stderr Msg.disconnect_not_acked]) } := by
  unfold disconnect
  simp only [mqtt_sn_receive_packet, say]
  split_ifs <;> simp_all

/-- The run of `main` for an accepted command line when the socket was created. -/
theorem main_of_session (env : Env) (opts : List Opt) (g : Globals)
    (hp : parse_opts opts = .ok g) (hs : env.sock ≠ 0) :
    main env opts = match session env (start g) with
      | .error r => r
      | .ok w => { trace := w.trace ++ [Event.close, Event.cleanup], outcome := Outcome.ret 0 } := by
  simp only [main, hp]
  cases session env (start g) <;> simp [hs]

/-- The connect step sends no PUBLISH. -/
theorem connect_event_not_publish (e : Event) (h : connect_event e = true) :
    is_publish e = false := by
  cases e <;> simp [connect_event, is_publish] at h ⊢

/-- The topic resolution sends no PUBLISH. -/
theorem resolve_event_not_publish (e : Event) (h : resolve_event e = true) :
    is_publish e = false := by
  cases e <;> simp [resolve_event, is_publish] at h ⊢

/-- What is known when the publish step is reached. -/
theorem before_publish (env : Env) (g : Globals) (w1 w2 : World)
    (hc : connect env (start g) = .ok w1) (hr : resolve_topic env w1 = .ok w2) :
    w2.g.qos = g.qos ∧ w2.g.message_data = g.message_data ∧ w2.g.retain = g.retain ∧
    ∃ evs, w2.trace = (start g).trace ++ evs ∧
      ∀ e ∈ evs, connect_event e = true ∨ resolve_event e = true := by
  obtain ⟨hg1, evs1, ht1, hk1⟩ := connect_ok env _ _ hc
  obtain ⟨hq, hm, hrt, evs2, ht2, hk2⟩ := resolve_ok env _ _ hr
  rw [hg1] at hq hm hrt
  refine ⟨hq, hm, hrt, evs1 ++ evs2, by simp [ht2, ht1], ?_⟩
  intro e he
  rcases List.mem_append.1 he with he | he
  · exact Or.inl (hk1 e he)
  · exact Or.inr (hk2 e he)

/-- No PUBLISH is sent before the publish step. -/
theorem before_publish_no_publish (env : Env) (g : Globals) (w1 w2 : World)
    (hc : connect env (start g) = .ok w1) (hr : resolve_topic env w1 = .ok w2) :
    w2.trace.filter is_publish = [] := by
  obtain ⟨_, _, _, evs, ht, hk⟩ := before_publish env g w1 w2 hc hr
  rw [ht, List.filter_append]
  have h1 : (start g).trace.filter is_publish = [] := by simp [start, is_publish]
  have h2 : evs.filter is_publish = [] := by
    rw [List.filter_eq_nil_iff]
    intro e he
    rcases hk e he with h | h
    · simp [connect_event_not_publish e h]
    · simp [resolve_event_not_publish e h]
  simp [h1, h2]

/-- The "Send required" warning is not written before the publish step. -/
theorem before_publish_no_send_required (env : Env) (g : Globals) (w1 w2 : World)
    (hc : connect env (start g) = .ok w1) (hr : resolve_topic env w1 = .ok w2)
    (n : Nat) : Event.stderr (Msg.send_required n) ∉ w2.trace := by
  obtain ⟨_, _, _, evs, ht, hk⟩ := before_publish env g w1 w2 hc hr
  rw [ht]
  intro hmem
  rcases List.mem_append.1 hmem with h | h
  · simp [start] at h
  · rcases hk _ h with h | h
    · simp [connect_event] at h
    · simp [resolve_event] at h

/-- The packets sent in `k` rounds of the publish loop: `k` times the PUBLISH. -/
theorem retry_events_sends (env : Env) (g : Globals) :
    ∀ (k r n : Nat), (retry_events env g k r n).filter is_send
      = List.replicate k (publish_call g) := by
  intro k
  induction k with
  | zero => intro r n; simp [retry_events]
  | succ k ih =>
    intro r n
    simp [retry_events, List.filter_cons, is_send, publish_call, ih, List.replicate_succ]

/-- The gateway `silent_recv` is silent from the receive number 3 on. -/
theorem silent_recv_late (i : Nat) : silent_recv (3 + i) = none := by
  unfold silent_recv
  rw [if_neg (by omega), if_neg (by omega), if_neg (by omega)]

/-- The gateway `gateway_recv k` lets the receives 3 to `3 + k - 1` time out. -/
theorem gateway_recv_timeout (k i : Nat) (h : i < k) : gateway_recv k (3 + i) = none := by
  unfold gateway_recv
  rw [if_neg (by omega), if_neg (by omega), if_neg (by omega), if_pos (by omega)]

/-- The gateway `gateway_recv k` sends the PUBACK at the receive `3 + k`. -/
theorem gateway_recv_ack (k : Nat) :
    gateway_recv k (3 + k) = some { type := PacketType.MQTT_SN_TYPE_PUBACK } := by
  unfold gateway_recv
  rw [if_neg (by omega), if_neg (by omega), if_neg (by omega), if_neg (by omega), if_pos rfl]

/-! ## parse_opts -/

/-- The option loop ends the run only through `usage()`. -/
theorem getopt_loop_error (g0 : Globals) (opts : List Opt) (r : Run)
    (h : getopt_loop g0 opts = .error r) : r = usage := by
  induction opts generalizing g0 with
  | nil => simp [getopt_loop] at h
  | cons o rest ih =>
    cases o <;> simp only [getopt_loop, parse_opt] at h <;>
      first
        | exact ih _ h
        | (simp at h; exact h.symm)

/-- After the option loop `topic_name` is set exactly when it was set before or
a `-t` option was given. -/
theorem getopt_loop_topic_name (g0 g : Globals) (opts : List Opt)
    (h : getopt_loop g0 opts = .ok g) :
    g.topic_name.isSome = true ↔
      (g0.topic_name.isSome = true ∨ ∃ name, Opt.t name ∈ opts) := by
  induction opts generalizing g0 with
  | nil => simp [getopt_loop] at h; subst h; simp
  | cons o rest ih =>
    cases o <;> simp only [getopt_loop, parse_opt] at h <;>
      first
        | (rw [ih _ h]; simp)
        | simp at h

/-- A value from 1 to 65535 is stored unchanged, hence non-zero, in a `uint16_t`. -/
theorem uint16_t_ne_zero (v : Int) (h0 : 0 < v) (h1 : v < 65536) : uint16_t v ≠ 0 := by
  unfold uint16_t
  rw [Int.emod_eq_of_lt (by omega) h1]
  omega

/-- After the option loop, when every `-T` value is from 1 to 65535, `topic_id`
is non-zero exactly when it was non-zero before or a `-T` option was given. -/
theorem getopt_loop_topic_id (g0 g : Globals) (opts : List Opt)
    (h : getopt_loop g0 opts = .ok g)
    (hT : ∀ v, Opt.T v ∈ opts → 0 < v ∧ v < 65536) :
    g.topic_id ≠ 0 ↔ (g0.topic_id ≠ 0 ∨ ∃ v, Opt.T v ∈ opts) := by
  induction opts generalizing g0 with
  | nil => simp [getopt_loop] at h; subst h; simp
  | cons o rest ih =>
    have hT2 : ∀ v, Opt.T v ∈ rest → 0 < v ∧ v < 65536 :=
      fun v hv => hT v (List.mem_cons_of_mem _ hv)
    cases o <;> simp only [getopt_loop, parse_opt] at h <;>
      first
        | (rw [ih _ h hT2]; simp; done)
        | simp at h
        | skip
    rename_i v
    rw [ih _ h hT2]
    have := uint16_t_ne_zero v (hT v (by simp)).1 (hT v (by simp)).2
    simp [this]

/-- What holds of a configuration that passes the checks of `parse_opts`. -/
theorem check_opts_ok (g g1 : Globals) (h : check_opts g = .ok g1) :
    g1 = g ∧ g.message_data.isSome = true ∧ (g.qos = -1 ∨ g.qos = 0 ∨ g.qos = 1)
    ∧ ((g.topic_name.isSome = true ∧ g.topic_id = 0) ∨ (g.topic_name = none ∧ g.topic_id ≠ 0))
    ∧ (g.qos = -1 → g.topic_id = 0 → ∃ name, g.topic_name = some name ∧ name.length = 2) := by
  unfold check_opts at h
  split_ifs at h with h1 h2 h3 h4
  · split at h
    · simp at h
    · split_ifs at h with h5
      rename_i name hn
      simp only [Except.ok.injEq] at h
      subst h
      simp [hn] at h1 h2 h3 h4 h5
      simp [hn, h3, h4, h5]
      cases hmd : g.message_data with
      | none => exact absurd hmd h1
      | some _ => rfl
  · simp only [Except.ok.injEq] at h
    subst h
    simp at h1 h2 h3 h4
    have hm : g.message_data.isSome = true := by
      cases hmd : g.message_data with
      | none => exact absurd hmd h1.2
      | some _ => rfl
    have hq : g.qos = -1 ∨ g.qos = 0 ∨ g.qos = 1 := by
      by_cases a : g.qos = -1
      · exact Or.inl a
      · by_cases b : g.qos = 0
        · exact Or.inr (Or.inl b)
        · exact Or.inr (Or.inr (h2 a b))
    refine ⟨rfl, hm, hq, ?_, ?_⟩
    · cases hn : g.topic_name with
      | none => exact Or.inr ⟨rfl, h1.1 hn⟩
      | some name => exact Or.inl ⟨rfl, h3 (by simp [hn])⟩
    · intro hq hid
      exact absurd hid (h4 hq)

/-- An accepted command line passed the option loop and the checks. -/
theorem parse_opts_ok (opts : List Opt) (g : Globals) (h : parse_opts opts = .ok g) :
    getopt_loop {} opts = .ok g ∧ check_opts g = .ok g := by
  unfold parse_opts at h
  split at h
  · rename_i g0 hl
    have := (check_opts_ok g0 g h).1
    subst this
    exact ⟨hl, h⟩
  · simp at h

/-- When the option loop returns, `parse_opts` is the checks on its result. -/
theorem parse_opts_of_loop (opts : List Opt) (g : Globals)
    (h : getopt_loop {} opts = .ok g) : parse_opts opts = check_opts g := by
  simp [parse_opts, h]

/-- When the option loop ends the run, so does `parse_opts`, through `usage()`. -/
theorem parse_opts_of_loop_error (opts : List Opt) (r : Run)
    (h : getopt_loop {} opts = .error r) : parse_opts opts = .error usage := by
  have := getopt_loop_error _ _ _ h
  subst this
  simp [parse_opts, h]

/-- Neither a topic name nor a topic id: `usage()`. -/
theorem check_opts_neither (g : Globals) (hn : g.topic_name = none) (hi : g.topic_id = 0) :
    check_opts g = .error usage := by
  simp [check_opts, hn, hi]

/-- Both a topic name and a topic id: `exit(-1)`. -/
theorem check_opts_both (g : Globals) (hn : g.topic_name.isSome = true) (hi : g.topic_id ≠ 0) :
    ∃ r, check_opts g = .error r ∧ r.outcome = Outcome.exit (-1) := by
  unfold check_opts
  split_ifs with h1 h2 h3 h4 <;>
    first
      | exact ⟨_, rfl, rfl⟩
      | (exfalso; simp [hn, hi] at h3)

/-- The checks at `qos = -1` for a topic name without topic id. -/
theorem check_opts_qos_n1_name (g : Globals) (name : CString) (hq : g.qos = -1)
    (hm : g.message_data.isSome = true) (hn : g.topic_name = some name) (hi : g.topic_id = 0) :
    check_opts g = if name.length ≠ 2 then
        .error { trace := [Event.stderr Msg.qos_n1_topic], outcome := Outcome.exit (-1) }
      else .ok g := by
  simp [check_opts, hq, hm, hn, hi]

/-- The checks at `qos = -1` for a topic id without topic name. -/
theorem check_opts_qos_n1_id (g : Globals) (hq : g.qos = -1)
    (hm : g.message_data.isSome = true) (hn : g.topic_name = none) (hi : g.topic_id ≠ 0) :
    check_opts g = .ok g := by
  simp [check_opts, hq, hm, hn, hi]

/-! ## The order of events and the later steps -/

/-- The empty trace. -/
theorem only_after_nil (p q : Event → Bool) : only_after p q [] := by
  intro pre e post h
  simp at h

/-- How `only_after` unfolds along the trace. -/
theorem only_after_cons (p q : Event → Bool) (a : Event) (l : List Event) :
    only_after p q (a :: l) ↔ (q a = false ∧ (p a = true ∨ only_after p q l)) := by
  constructor
  · intro H
    constructor
    · by_contra hq
      obtain ⟨x, hx, _⟩ := H [] a l rfl (by simpa using hq)
      simp at hx
    · by_cases hp : p a = true
      · exact Or.inl hp
      · right
        intro pre e post hl hq
        obtain ⟨x, hx, hpx⟩ := H (a :: pre) e post (by simp [hl]) hq
        rcases List.mem_cons.1 hx with rfl | hx
        · exact absurd hpx hp
        · exact ⟨x, hx, hpx⟩
  · rintro ⟨hq, hp⟩ pre e post h hqe
    cases pre with
    | nil =>
      simp at h
      rw [h.1, hqe] at hq
      simp at hq
    | cons b pre =>
      simp at h
      obtain ⟨rfl, hl⟩ := h
      rcases hp with hp | hp
      · exact ⟨a, List.mem_cons_self _ _, hp⟩
      · obtain ⟨x, hx, hpx⟩ := hp pre e post hl hqe
        exact ⟨x, List.mem_cons_of_mem _ hx, hpx⟩

/-- When the topic resolution ends the run, it does so after events of the
topic resolution. -/
theorem resolve_error (env : Env) (w : World) (r : Run) (h : resolve_topic env w = .error r) :
    ∃ evs, r.trace = w.trace ++ evs ∧ ∀ e ∈ evs, resolve_event e = true := by
  unfold resolve_topic at h
  simp only [mqtt_sn_receive_regack, say] at h
  split at h
  · simp at h
  · split at h
    · simp at h; subst h; exact ⟨[], by simp, by simp⟩
    · split_ifs at h
      · split at h
        · simp at h
        · rename_i heq
          simp at h; subst h
          split at heq
          · split_ifs at heq
            simp at heq; subst heq
            exact ⟨_, by simp; rfl, by simp [resolve_event]⟩
          · simp at heq; subst heq
            exact ⟨_, by simp; rfl, by simp [resolve_event]⟩

/-- Events of the topic resolution are events of the later steps. -/
theorem resolve_event_after (e : Event) (h : resolve_event e = true) :
    after_connect_event e = true := by
  cases e <;> simp [resolve_event, after_connect_event] at h ⊢

/-- Events of the publish step are events of the later steps. -/
theorem publish_event_after (e : Event) (h : publish_event e = true) :
    after_connect_event e = true := by
  cases e with
  | stderr m => cases m <;> simp [publish_event, after_connect_event] at h ⊢
  | _ => simp [publish_event, after_connect_event] at h ⊢

/-- The disconnect step never ends the run; it leaves the global variables
unchanged and adds events of the later steps. -/
theorem disconnect_ok (env : Env) (w : World) :
    ∃ w1 evs, disconnect env w = .ok w1 ∧ w1.g = w.g ∧ w1.trace = w.trace ++ evs
      ∧ ∀ e ∈ evs, after_connect_event e = true := by
  unfold disconnect
  simp only [mqtt_sn_receive_packet, say]
  split_ifs
  · exact ⟨_, [Event.send_disconnect, Event.receive_packet (env.recv w.nrecv)], rfl, rfl,
      by simp, by simp [after_connect_event]⟩
  · exact ⟨_, [Event.send_disconnect, Event.receive_packet (env.recv w.nrecv),
      Event.stderr Msg.disconnect_not_acked], rfl, rfl, by simp, by simp [after_connect_event]⟩
  · exact ⟨_, [], rfl, rfl, by simp, by simp⟩

/-- Once the connect step is over, the rest of the run only adds events of
the later steps to the trace. -/
theorem main_after_connect (env : Env) (opts : List Opt) (g : Globals) (w1 : World)
    (hp : parse_opts opts = .ok g) (hs : env.sock ≠ 0)
    (hc : connect env (start g) = .ok w1) :
    ∃ tail, (main env opts).trace = w1.trace ++ tail
      ∧ ∀ e ∈ tail, after_connect_event e = true := by
  rw [main_of_session env opts g hp hs]
  simp only [session, hc]
  cases hr : resolve_topic env w1 with
  | error r =>
    obtain ⟨evs, ht, hk⟩ := resolve_error env w1 r hr
    exact ⟨evs, ht, fun e he => resolve_event_after e (hk e he)⟩
  | ok w2 =>
    obtain ⟨-, -, -, evs2, ht2, hk2⟩ := resolve_ok env w1 w2 hr
    cases hpub : publish env w2 with
    | error r =>
      obtain ⟨-, evs3, ht3, hk3⟩ := publish_error env w2 r hpub
      refine ⟨evs2 ++ evs3, by simp [hpub, ht3, ht2], ?_⟩
      intro e he
      rcases List.mem_append.1 he with he | he
      · exact resolve_event_after e (hk2 e he)
      · exact publish_event_after e (hk3 e he)
    | ok w3 =>
      obtain ⟨-, evs3, ht3, hk3⟩ := publish_ok env w2 w3 hpub
      obtain ⟨w4, evs4, hd, -, ht4, hk4⟩ := disconnect_ok env w3
      refine ⟨evs2 ++ evs3 ++ evs4 ++ [Event.close, Event.cleanup],
        by simp [hpub, hd, ht4, ht3, ht2], ?_⟩
      intro e he
      simp only [List.mem_append, List.mem_cons, List.mem_singleton, List.not_mem_nil,
        or_false] at he
      rcases he with ((he | he) | he) | he | he
      · exact resolve_event_after e (hk2 e he)
      · exact publish_event_after e (hk3 e he)
      · exact hk4 e he
      · subst he; rfl
      · subst he; rfl

/-- The connect step at QoS 1, by the first three answers of the network. -/
theorem connect_qos1 (env : Env) (w : World) (hq : w.g.qos = 1) :
    connect env w =
      if has_type (env.recv w.nrecv) PacketType.MQTT_SN_TYPE_WILLTOPICREQ = true then
        if has_type (env.recv (w.nrecv + 1)) PacketType.MQTT_SN_TYPE_WILLMSGREQ = true then
          if has_type (env.recv (w.nrecv + 2)) PacketType.MQTT_SN_TYPE_CONNACK = true then
            .ok { g := w.g, nrecv := w.nrecv + 3,
                  trace := w.trace ++
                    [Event.send_connect w.g.client_id (MQTT_SN_FLAG_CLEAN ||| MQTT_SN_FLAG_WILL)
                        w.g.keep_alive,
                      Event.receive_packet (env.recv w.nrecv),
                      Event.send_will_topic w.g.t_topic_name
                        (MQTT_SN_FLAG_QOS_1 ||| MQTT_SN_FLAG_RETAIN),
                      Event.receive_packet (env.recv (w.nrecv + 1)),
                      Event.send_will_msg w.g.t_message_data,
                      Event.receive_connack (env.recv (w.nrecv + 2))] }
          else
            .error { trace := w.trace ++
                    [Event.send_connect w.g.client_id (MQTT_SN_FLAG_CLEAN ||| MQTT_SN_FLAG_WILL)
                        w.g.keep_alive,
                      Event.receive_packet (env.recv w.nrecv),
                      Event.send_will_topic w.g.t_topic_name
                        (MQTT_SN_FLAG_QOS_1 ||| MQTT_SN_FLAG_RETAIN),
                      Event.receive_packet (env.recv (w.nrecv + 1)),
                      Event.send_will_msg w.g.t_message_data,
                      Event.receive_connack (env.recv (w.nrecv + 2))],
                     outcome := Outcome.exit (-1) }
        else
          .error { trace := w.trace ++
                    [Event.send_connect w.g.client_id (MQTT_SN_FLAG_CLEAN ||| MQTT_SN_FLAG_WILL)
                        w.g.keep_alive,
                      Event.receive_packet (env.recv w.nrecv),
                      Event.send_will_topic w.g.t_topic_name
                        (MQTT_SN_FLAG_QOS_1 ||| MQTT_SN_FLAG_RETAIN),
                      Event.receive_packet (env.recv (w.nrecv + 1)),
                      Event.stderr Msg.no_willmsgreq],
                   outcome := Outcome.exit (-1) }
      else
        .error { trace := w.trace ++
                    [Event.send_connect w.g.client_id (MQTT_SN_FLAG_CLEAN ||| MQTT_SN_FLAG_WILL)
                        w.g.keep_alive,
                      Event.receive_packet (env.recv w.nrecv),
                      Event.stderr Msg.no_willtopicreq],
                 outcome := Outcome.exit (-1) } := by
  unfold connect
  simp only [mqtt_sn_receive_connack, mqtt_sn_receive_packet, say, die, hq]
  split_ifs <;> simp_all

/-- The connect step at QoS -1 does nothing. -/
theorem connect_qos_n1 (env : Env) (w : World) (hq : w.g.qos = -1) : connect env w = .ok w := by
  simp [connect, hq]

/-- The disconnect step at QoS -1 does nothing. -/
theorem disconnect_qos_n1 (env : Env) (w : World) (hq : w.g.qos = -1) :
    disconnect env w = .ok w := by
  simp [disconnect, hq]

/-- Before the disconnect step no DISCONNECT was sent and the disconnect warning
was not written. -/
theorem before_disconnect_trace (env : Env) (g : Globals) (w1 w2 w3 : World)
    (hc : connect env (start g) = .ok w1) (hr : resolve_topic env w1 = .ok w2)
    (hpub : publish env w2 = .ok w3) :
    w3.g.qos = g.qos ∧ Event.send_disconnect ∉ w3.trace
      ∧ Event.stderr Msg.disconnect_not_acked ∉ w3.trace := by
  obtain ⟨hq2, -, -, evs, ht, hk⟩ := before_publish env g w1 w2 hc hr
  obtain ⟨hg3, evs3, ht3, hk3⟩ := publish_ok env w2 w3 hpub
  refine ⟨by rw [hg3, hq2], ?_, ?_⟩
  · rw [ht3, ht]
    intro hmem
    simp only [List.mem_append] at hmem
    rcases hmem with (h | h) | h
    · simp [start] at h
    · rcases hk _ h with h | h
      · simp [connect_event] at h
      · simp [resolve_event] at h
    · have := hk3 _ h
      simp [publish_event] at this
  · rw [ht3, ht]
    intro hmem
    simp only [List.mem_append] at hmem
    rcases hmem with (h | h) | h
    · simp [start] at h
    · rcases hk _ h with h | h
      · simp [connect_event] at h
      · simp [resolve_event] at h
    · have := hk3 _ h
      simp [publish_event] at this

/-! ## Short topic names and the QoS domain -/

/-- The packing of a two-character topic name: where plain `char` is unsigned,
or the second byte is below 0x80, the topic id is `(c0 << 8) | c1`. -/
theorem short_topic_id_eq (char_signed : Bool) (c0 c1 : Byte)
    (h : char_signed = false ∨ c1.val < 128) :
    short_topic_id char_signed [c0, c1] = (c0.val <<< 8) ||| c1.val := by
  have h0 := c0.isLt
  have h1 := c1.isLt
  have hor : (c0.val <<< 8) ||| c1.val = c0.val * 256 + c1.val := by
    rw [Nat.shiftLeft_eq, Nat.mul_comm, ← Nat.mul_add_lt_is_or (show c1.val < 2 ^ 8 from h1)]
  rw [hor]
  unfold short_topic_id uint16_t char_to_int
  simp only [List.getD_cons_zero, List.getD_cons_succ]
  rcases h with h | h
  · subst h
    simp only [Bool.false_and, Bool.false_eq_true, if_false]
    omega
  · have h1n : ¬ (128 ≤ c1.val) := by omega
    by_cases hc : char_signed = true
    · by_cases h0n : 128 ≤ c0.val
      · simp only [hc, Bool.true_and, decide_eq_true_eq, h0n, h1n, if_true, if_false]
        omega
      · simp only [hc, Bool.true_and, decide_eq_true_eq, h0n, h1n, if_false]
        omega
    · simp only [hc, Bool.false_and, Bool.false_eq_true, if_false]
      omega

/-- The stored `qos` of an accepted configuration is -1, 0 or 1. -/
theorem parse_opts_qos_domain (opts : List Opt) (g : Globals) (h : parse_opts opts = .ok g) :
    g.qos = -1 ∨ g.qos = 0 ∨ g.qos = 1 :=
  (check_opts_ok g g (parse_opts_ok opts g h).2).2.2.1

/-! ## More on parse_opts and on the steps of main -/

/-- The option loop sets neither `keep_alive` nor `topic_id_type`. -/
theorem getopt_loop_untouched (g0 g : Globals) (opts : List Opt)
    (h : getopt_loop g0 opts = .ok g) :
    g.keep_alive = g0.keep_alive ∧ g.topic_id_type = g0.topic_id_type := by
  induction opts generalizing g0 with
  | nil => simp [getopt_loop] at h; subst h; simp
  | cons o rest ih =>
    cases o <;> simp only [getopt_loop, parse_opt] at h <;>
      first
        | simpa using ih _ h
        | simp at h

/-- After the option loop the will topic is set exactly when it was set before
or a `-w` option was given, and likewise the will payload and `-W`. -/
theorem getopt_loop_will (g0 g : Globals) (opts : List Opt)
    (h : getopt_loop g0 opts = .ok g) :
    (g.t_topic_name.isSome = true ↔
      (g0.t_topic_name.isSome = true ∨ ∃ s, Opt.w s ∈ opts))
    ∧ (g.t_message_data.isSome = true ↔
      (g0.t_message_data.isSome = true ∨ ∃ s, Opt.W s ∈ opts)) := by
  induction opts generalizing g0 with
  | nil => simp [getopt_loop] at h; subst h; simp
  | cons o rest ih =>
    cases o <;> simp only [getopt_loop, parse_opt] at h <;>
      first
        | (rw [(ih _ h).1, (ih _ h).2]; simp)
        | simp at h

/-- Every run that `parse_opts` ends is one of its four error exits. -/
theorem check_opts_error (g : Globals) (r : Run) (h : check_opts g = .error r) :
    r = usage
    ∨ r = { trace := [Event.stderr Msg.only_qos], outcome := Outcome.exit (-1) }
    ∨ r = { trace := [Event.stderr Msg.not_both], outcome := Outcome.exit (-1) }
    ∨ r = { trace := [Event.stderr Msg.qos_n1_topic], outcome := Outcome.exit (-1) } := by
  unfold check_opts at h
  split_ifs at h with h1 h2 h3 h4
  · simp at h; exact Or.inl h.symm
  · simp at h; exact Or.inr (Or.inl h.symm)
  · simp at h; exact Or.inr (Or.inr (Or.inl h.symm))
  · split at h
    · rename_i hn
      exfalso
      simp [hn] at h1 h4
      exact h1.1 h4.2
    · split_ifs at h
      simp at h; exact Or.inr (Or.inr (Or.inr h.symm))

/-- Every run that `parse_opts` ends is the usage exit or one of its three
error exits. -/
theorem parse_opts_error (opts : List Opt) (r : Run) (h : parse_opts opts = .error r) :
    r = usage
    ∨ r = { trace := [Event.stderr Msg.only_qos], outcome := Outcome.exit (-1) }
    ∨ r = { trace := [Event.stderr Msg.not_both], outcome := Outcome.exit (-1) }
    ∨ r = { trace := [Event.stderr Msg.qos_n1_topic], outcome := Outcome.exit (-1) } := by
  cases hl : getopt_loop {} opts with
  | error r0 =>
    rw [parse_opts_of_loop_error opts r0 hl] at h
    simp at h
    exact Or.inl h.symm
  | ok g =>
    rw [parse_opts_of_loop opts g hl] at h
    exact check_opts_error g r h

/-- When `parse_opts` ends the run, that run is the run of `main`. -/
theorem main_of_parse_error (env : Env) (opts : List Opt) (r : Run)
    (h : parse_opts opts = .error r) : main env opts = r := by
  simp [main, h]

/-- A configuration that meets the four rules passes the checks of `parse_opts`. -/
theorem check_opts_accept (g : Globals) (hm : g.message_data.isSome = true)
    (hq : g.qos = -1 ∨ g.qos = 0 ∨ g.qos = 1)
    (ht : (g.topic_name.isSome = true ∧ g.topic_id = 0) ∨ (g.topic_name = none ∧ g.topic_id ≠ 0))
    (hs : g.qos = -1 → g.topic_id = 0 → ∃ name, g.topic_name = some name ∧ name.length = 2) :
    check_opts g = .ok g := by
  unfold check_opts
  have h1 : ¬ ((!(g.topic_name.isSome || g.topic_id != 0) || !g.message_data.isSome) = true) := by
    rcases ht with ⟨a, b⟩ | ⟨a, b⟩ <;> simp [a, b, hm]
  have h2 : ¬ ((g.qos != -1 && g.qos != 0 && g.qos != 1) = true) := by
    rcases hq with a | a | a <;> simp [a]
  have h3 : ¬ ((g.topic_name.isSome && g.topic_id != 0) = true) := by
    rcases ht with ⟨a, b⟩ | ⟨a, b⟩ <;> simp [a, b]
  rw [if_neg h1, if_neg h2, if_neg h3]
  by_cases h4 : (g.qos == -1 && g.topic_id == 0) = true
  · rw [if_pos h4]
    simp at h4
    obtain ⟨name, hn, hl⟩ := hs h4.1 h4.2
    simp [hn, hl]
  · rw [if_neg h4]

/-- The checks of `parse_opts` do not read the will topic and payload. -/
theorem check_opts_erase_will (g : Globals) (h : check_opts g = .ok g) :
    check_opts (erase_will g) = .ok (erase_will g) := by
  obtain ⟨-, hm, hq, ht, hs⟩ := check_opts_ok g g h
  exact check_opts_accept (erase_will g) hm hq ht hs

/-- The option loop on a command line without its `-w` and `-W` options, from a
state that differs in the will variables only: the same result, but for the
will variables, which are left as they were. -/
theorem getopt_loop_without_will (opts : List Opt) :
    ∀ (a b g : Globals), erase_will a = erase_will b → getopt_loop a opts = .ok g →
      ∃ g1, getopt_loop b (without_will opts) = .ok g1 ∧ erase_will g1 = erase_will g
        ∧ g1.t_topic_name = b.t_topic_name ∧ g1.t_message_data = b.t_message_data := by
  induction opts with
  | nil =>
    intro a b g hab h
    simp [getopt_loop] at h
    subst h
    exact ⟨b, by simp [without_will, getopt_loop], hab.symm, rfl, rfl⟩
  | cons o rest ih =>
    intro a b g hab h
    have hab2 := hab
    simp only [erase_will, Globals.mk.injEq] at hab2
    cases o <;> simp only [getopt_loop, parse_opt] at h <;>
      first
        | simp at h
        | (simp only [without_will, List.filter_cons, getopt_loop, parse_opt, if_true,
             Bool.false_eq_true, if_false]
           refine ih _ _ g ?_ h
           simp [erase_will, hab2])

/-- A configuration without will is its own `erase_will`. -/
theorem erase_will_of_none (g : Globals) (h1 : g.t_topic_name = none)
    (h2 : g.t_message_data = none) : erase_will g = g := by
  cases g
  simp only [erase_will] at *
  simp [h1, h2]

/-- An accepted command line is still accepted without its `-w` and `-W` options. -/
theorem parse_opts_without_will (opts : List Opt) (g : Globals)
    (h : parse_opts opts = .ok g) :
    parse_opts (without_will opts) = .ok (erase_will g) := by
  obtain ⟨hl, hc⟩ := parse_opts_ok opts g h
  obtain ⟨g1, h1, h2, h3, h4⟩ := getopt_loop_without_will opts {} {} g rfl hl
  have hg1 : g1 = erase_will g := by
    rw [← h2]
    exact (erase_will_of_none g1 (by simpa using h3) (by simpa using h4)).symm
  subst hg1
  rw [parse_opts_of_loop _ _ h1]
  exact check_opts_erase_will g hc

/-- The stored `uint16_t` is 0 exactly for the values congruent to 0 modulo 65536. -/
theorem uint16_t_eq_zero_iff (v : Int) : uint16_t v = 0 ↔ v % 65536 = 0 := by
  unfold uint16_t
  have h := Int.emod_nonneg v (by decide : (65536 : Int) ≠ 0)
  omega

/-- Storing 0 in a `topic_id` that is 0 changes nothing. -/
theorem globals_topic_id_eta (g : Globals) (h : g.topic_id = 0) :
    { g with topic_id := 0 } = g := by
  cases g
  simp only at h
  simp [h]

/-- When every `-T` value is stored as 0, the option loop does the same with and
without the `-T` options. -/
theorem getopt_loop_without_T (opts : List Opt)
    (hT : ∀ v, Opt.T v ∈ opts → v % 65536 = 0) :
    ∀ g0 : Globals, g0.topic_id = 0 →
      getopt_loop g0 opts = getopt_loop g0 (without_T opts) := by
  induction opts with
  | nil => intro g0 _; rfl
  | cons o rest ih =>
    intro g0 h0
    have hT2 : ∀ v, Opt.T v ∈ rest → v % 65536 = 0 :=
      fun v hv => hT v (List.mem_cons_of_mem _ hv)
    cases o <;>
      simp only [without_T, List.filter_cons, getopt_loop, parse_opt, if_true,
        Bool.false_eq_true, if_false] <;>
      first
        | exact ih hT2 _ (by simpa using h0)
        | skip
    rename_i v
    have hv : uint16_t v = 0 := (uint16_t_eq_zero_iff v).2 (hT v (by simp))
    rw [hv, globals_topic_id_eta g0 h0]
    exact ih hT2 g0 h0

/-- When every `-T` value is stored as 0, `topic_id` is 0 after the option loop. -/
theorem getopt_loop_topic_id_zero (opts : List Opt)
    (hT : ∀ v, Opt.T v ∈ opts → v % 65536 = 0) :
    ∀ g0 g : Globals, g0.topic_id = 0 → getopt_loop g0 opts = .ok g → g.topic_id = 0 := by
  induction opts with
  | nil => intro g0 g h0 h; simp [getopt_loop] at h; subst h; exact h0
  | cons o rest ih =>
    intro g0 g h0 h
    have hT2 : ∀ v, Opt.T v ∈ rest → v % 65536 = 0 :=
      fun v hv => hT v (List.mem_cons_of_mem _ hv)
    cases o <;> simp only [getopt_loop, parse_opt] at h <;>
      first
        | exact ih hT2 _ g (by simpa using h0) h
        | simp at h
        | skip
    rename_i v
    exact ih hT2 _ g (by simpa using (uint16_t_eq_zero_iff v).2 (hT v (by simp))) h

/-- When every `-T` value is stored as 0, `parse_opts` does the same with and
without the `-T` options. -/
theorem parse_opts_without_T (opts : List Opt)
    (hT : ∀ v, Opt.T v ∈ opts → v % 65536 = 0) :
    parse_opts opts = parse_opts (without_T opts) := by
  unfold parse_opts
  rw [getopt_loop_without_T opts hT {} rfl]

/-- The run of `main` depends on the command line through `parse_opts` only. -/
theorem main_congr (env : Env) (opts opts2 : List Opt)
    (h : parse_opts opts = parse_opts opts2) : main env opts = main env opts2 := by
  unfold main
  rw [h]

/-- With `topic_id = 0` the checks do not end in the "not both" error. -/
theorem check_opts_not_both (g : Globals) (h0 : g.topic_id = 0) :
    check_opts g ≠ .error { trace := [Event.stderr Msg.not_both], outcome := Outcome.exit (-1) } := by
  intro h
  unfold check_opts at h
  split_ifs at h with h1 h2 h3 h4
  · simp [usage] at h
  · simp at h
  · simp [h0] at h3
  · split at h
    · simp at h
    · split_ifs at h
      simp at h
  

/-- A property that holds of the receives, the retry warnings, the "not acked"
error, the sleep and the PUBLISH call holds of every event the publish loop
adds to the trace. -/
theorem publish_loop_all (env : Env) (P : Event → Prop) (g : Globals)
    (hrecv : ∀ p, P (Event.receive_packet p))
    (hretry : ∀ r, P (Event.stderr (Msg.retrying r)))
    (hna : ∀ r, P (Event.stderr (Msg.not_acked r)))
    (hsleep : P (Event.sleep 1)) (hpub : P (publish_call g)) :
    ∀ (k r : Nat) (w : World), w.g = g → 11 - r = k →
      ∃ evs, (∀ e ∈ evs, P e) ∧
        match publish_loop env r w with
        | .ok (_, w1) => w1.g = w.g ∧ w1.trace = w.trace ++ evs
        | .error run => run.outcome = Outcome.exit (-1) ∧ run.trace = w.trace ++ evs := by
  intro k
  induction k with
  | zero =>
    intro r w _ hr
    rw [publish_loop]
    simp only [mqtt_sn_receive_packet]
    have hr10 : r > 10 := by omega
    by_cases h : has_type (env.recv w.nrecv) PacketType.MQTT_SN_TYPE_PUBACK = true
    · exact ⟨[Event.receive_packet (env.recv w.nrecv)], by simpa using hrecv _, by simp [h]⟩
    · refine ⟨[Event.receive_packet (env.recv w.nrecv), Event.stderr (Msg.retrying r),
        Event.stderr (Msg.not_acked (r + 1))], ?_, by simp [h, hr10, say, die]⟩
      intro e he
      simp at he
      rcases he with rfl | rfl | rfl
      · exact hrecv _
      · exact hretry _
      · exact hna _
  | succ k ih =>
    intro r w hg hr
    rw [publish_loop]
    simp only [mqtt_sn_receive_packet]
    have hr10 : ¬ r > 10 := by omega
    by_cases h : has_type (env.recv w.nrecv) PacketType.MQTT_SN_TYPE_PUBACK = true
    · exact ⟨[Event.receive_packet (env.recv w.nrecv)], by simpa using hrecv _, by simp [h]⟩
    · simp only [h, hr10, say, mqtt_sn_send_publish]
      simp only [Bool.false_eq_true, if_false]
      obtain ⟨evs, hevs, hm⟩ := ih (r + 1)
        { g := w.g, nrecv := w.nrecv + 1,
          trace := w.trace ++ [Event.receive_packet (env.recv w.nrecv)]
            ++ [Event.stderr (Msg.retrying r)] ++ [Event.sleep 1] ++ [publish_call w.g] }
        hg (by omega)
      refine ⟨[Event.receive_packet (env.recv w.nrecv), Event.stderr (Msg.retrying r),
        Event.sleep 1, publish_call w.g] ++ evs, ?_, ?_⟩
      · intro e he
        simp at he
        rcases he with rfl | rfl | rfl | rfl | he
        · exact hrecv _
        · exact hretry _
        · exact hsleep
        · rw [hg]; exact hpub
        · exact hevs e he
      · simp only [publish_call] at hm ⊢
        split at hm <;> rename_i heq <;> simp [heq] at hm ⊢ <;> simpa using hm

/-- The publish step starts with the PUBLISH call, and every event it adds
after it is a receive, a warning or error of the retry loop, a sleep, or the
same PUBLISH call again. -/
theorem publish_all (env : Env) (P : Event → Prop) (w : World)
    (hrecv : ∀ p, P (Event.receive_packet p))
    (hretry : ∀ r, P (Event.stderr (Msg.retrying r)))
    (hna : ∀ r, P (Event.stderr (Msg.not_acked r)))
    (hsr : ∀ r, P (Event.stderr (Msg.send_required r)))
    (hsleep : P (Event.sleep 1)) (hpub : P (publish_call w.g)) :
    ∃ evs, (∀ e ∈ evs, P e) ∧
      match publish env w with
      | .ok w1 => w1.g = w.g ∧ w1.trace = w.trace ++ publish_call w.g :: evs
      | .error run => run.outcome = Outcome.exit (-1)
          ∧ run.trace = w.trace ++ publish_call w.g :: evs := by
  unfold publish
  obtain ⟨evs, hevs, hm⟩ := publish_loop_all env P w.g hrecv hretry hna hsleep hpub _ 0
    (mqtt_sn_send_publish w) rfl rfl
  simp only [mqtt_sn_send_publish, say] at hm ⊢
  by_cases hq : (w.g.qos == 1) = true
  · rw [if_pos hq]
    split at hm
    · rename_i retries w2 heq
      try rw [heq]
      try simp only
      by_cases h0 : (retries != 0) = true
      · rw [if_pos h0]
        refine ⟨evs ++ [Event.stderr (Msg.send_required retries)], ?_, ?_⟩
        · intro e he
          rcases List.mem_append.1 he with he | he
          · exact hevs e he
          · simp at he; subst he; exact hsr _
        · simp [say, hm.1, hm.2, publish_call]
      · rw [if_neg h0]
        exact ⟨evs, hevs, by simp [hm.1, hm.2, publish_call]⟩
    · rename_i run heq
      try rw [heq]
      exact ⟨evs, hevs, by simp [hm.1, hm.2, publish_call]⟩
  · rw [if_neg hq]
    exact ⟨[], by simp, by simp [publish_call]⟩

/-- The run from the publish step on: the trace grows by the PUBLISH call
followed by events of `P`, where `P` holds of everything the publish and
disconnect steps and the end of `main` can add. -/
theorem main_after_resolve (env : Env) (opts : List Opt) (g : Globals) (w1 w2 : World)
    (P : Event → Prop)
    (hp : parse_opts opts = .ok g) (hs : env.sock ≠ 0)
    (hc : connect env (start g) = .ok w1) (hr : resolve_topic env w1 = .ok w2)
    (hrecv : ∀ p, P (Event.receive_packet p))
    (hretry : ∀ r, P (Event.stderr (Msg.retrying r)))
    (hna : ∀ r, P (Event.stderr (Msg.not_acked r)))
    (hsr : ∀ r, P (Event.stderr (Msg.send_required r)))
    (hsleep : P (Event.sleep 1)) (hpub : P (publish_call w2.g))
    (hdisc : P Event.send_disconnect) (hwarn : P (Event.stderr Msg.disconnect_not_acked))
    (hclose : P Event.close) (hclean : P Event.cleanup) :
    ∃ evs, (∀ e ∈ evs, P e)
      ∧ (main env opts).trace = w2.trace ++ publish_call w2.g :: evs := by
  rw [main_of_session env opts g hp hs]
  simp only [session, hc, hr]
  obtain ⟨evs, hevs, hm⟩ := publish_all env P w2 hrecv hretry hna hsr hsleep hpub
  split at hm
  · rename_i w3 heq
    try rw [heq]
    try simp only
    have hd : ∃ w4 evs4, disconnect env w3 = .ok w4 ∧ w4.trace = w3.trace ++ evs4
        ∧ ∀ e ∈ evs4, P e := by
      unfold disconnect
      simp only [mqtt_sn_receive_packet, say]
      split_ifs
      · exact ⟨_, [Event.send_disconnect, Event.receive_packet (env.recv w3.nrecv)], rfl,
          by simp, by
            intro e he
            simp at he
            rcases he with rfl | rfl
            · exact hdisc
            · exact hrecv _⟩
      · exact ⟨_, [Event.send_disconnect, Event.receive_packet (env.recv w3.nrecv),
          Event.stderr Msg.disconnect_not_acked], rfl, by simp, by
            intro e he
            simp at he
            rcases he with rfl | rfl | rfl
            · exact hdisc
            · exact hrecv _
            · exact hwarn⟩
      · exact ⟨_, [], rfl, by simp, by simp⟩
    obtain ⟨w4, evs4, hd4, ht4, hk4⟩ := hd
    rw [hd4]
    refine ⟨evs ++ evs4 ++ [Event.close, Event.cleanup], ?_, by simp [ht4, hm.2]⟩
    intro e he
    simp only [List.mem_append, List.mem_cons, List.mem_singleton, List.not_mem_nil,
      or_false] at he
    rcases he with (he | he) | he | he
    · exact hevs e he
    · exact hk4 e he
    · subst he; exact hclose
    · subst he; exact hclean
  · rename_i run heq
    try rw [heq]
    exact ⟨evs, hevs, hm.2⟩

/-- Topic resolution with a topic id. -/
theorem resolve_predefined (env : Env) (w : World) (h : w.g.topic_id ≠ 0) :
    resolve_topic env w = .ok
      { w with g := { w.g with topic_id_type := TopicType.MQTT_SN_TOPIC_TYPE_PREDEFINED } } := by
  simp [resolve_topic, h]

/-- Topic resolution with a two-character topic name. -/
theorem resolve_short (env : Env) (w : World) (name : CString) (h : w.g.topic_id = 0)
    (hn : w.g.topic_name = some name) (hl : name.length = 2) :
    resolve_topic env w = .ok
      { w with g := { w.g with topic_id := short_topic_id env.char_signed name,
                               topic_id_type := TopicType.MQTT_SN_TOPIC_TYPE_SHORT } } := by
  simp [resolve_topic, h, hn, hl]

/-- Topic resolution with a topic name that has to be registered. -/
theorem resolve_register (env : Env) (w : World) (name : CString) (h : w.g.topic_id = 0)
    (hn : w.g.topic_name = some name) (hl : name.length ≠ 2) (hq : 0 ≤ w.g.qos) :
    resolve_topic env w =
      if has_type (env.recv w.nrecv) PacketType.MQTT_SN_TYPE_REGACK = true then
        .ok { g := { w.g with topic_id := ((env.recv w.nrecv).map Packet.topic_id).getD 0 % 65536,
                              topic_id_type := TopicType.MQTT_SN_TOPIC_TYPE_NORMAL },
              nrecv := w.nrecv + 1,
              trace := w.trace ++ [Event.send_register (some name),
                Event.receive_regack (env.recv w.nrecv)] }
      else
        .error { trace := w.trace ++ [Event.send_register (some name),
                    Event.receive_regack (env.recv w.nrecv)],
                 outcome := Outcome.exit (-1) } := by
  unfold resolve_topic
  simp only [mqtt_sn_receive_regack, say, hn]
  cases hr : env.recv w.nrecv with
  | none => simp [h, hl, hq, has_type, hn]
  | some pk =>
    by_cases ht : pk.type = PacketType.MQTT_SN_TYPE_REGACK
    · simp [h, hl, hq, has_type, ht, hn]
    · simp [h, hl, hq, has_type, ht, hn]

/-- The connect step at QoS 0, by the first answer of the network. -/
theorem connect_qos0 (env : Env) (w : World) (hq : w.g.qos = 0) :
    connect env w =
      if has_type (env.recv w.nrecv) PacketType.MQTT_SN_TYPE_CONNACK = true then
        .ok { g := w.g, nrecv := w.nrecv + 1,
              trace := w.trace ++ [Event.send_connect w.g.client_id MQTT_SN_FLAG_CLEAN
                  w.g.keep_alive, Event.receive_connack (env.recv w.nrecv)] }
      else
        .error { trace := w.trace ++ [Event.send_connect w.g.client_id MQTT_SN_FLAG_CLEAN
                    w.g.keep_alive, Event.receive_connack (env.recv w.nrecv)],
                 outcome := Outcome.exit (-1) } := by
  unfold connect
  simp only [mqtt_sn_receive_connack, say, hq]
  split_ifs <;> simp_all

/-- In an accepted configuration `keep_alive` is 1 and `topic_id_type` is still
NORMAL. -/
theorem parse_opts_keep_alive (opts : List Opt) (g : Globals) (h : parse_opts opts = .ok g) :
    g.keep_alive = 1 ∧ g.topic_id_type = TopicType.MQTT_SN_TOPIC_TYPE_NORMAL := by
  have := getopt_loop_untouched _ _ _ (parse_opts_ok opts g h).1
  simpa using this

/-- The connect step sends no REGISTER. -/
theorem connect_event_not_register (e : Event) (h : connect_event e = true) :
    is_send_register e = false := by
  cases e <;> simp [connect_event, is_send_register] at h ⊢

/-- When the connect step goes on, the variables are unchanged and neither a
REGISTER nor a PUBLISH has been sent. -/
theorem after_connect_no_register_no_publish (env : Env) (g : Globals) (w1 : World)
    (hc : connect env (start g) = .ok w1) :
    w1.g = g ∧ w1.trace.filter is_send_register = [] ∧ w1.trace.filter is_publish = []
      ∧ ∀ e ∈ w1.trace, is_publish e = false := by
  obtain ⟨hg, evs, ht, hk⟩ := connect_ok env _ _ hc
  have hall : ∀ e ∈ w1.trace, is_publish e = false ∧ is_send_register e = false := by
    rw [ht]
    intro e he
    rcases List.mem_append.1 he with he | he
    · simp [start] at he
      rcases he with rfl | rfl <;> simp [is_publish, is_send_register]
    · exact ⟨connect_event_not_publish e (hk e he), connect_event_not_register e (hk e he)⟩
  refine ⟨by simpa [start] using hg, ?_, ?_, fun e he => (hall e he).1⟩
  · rw [List.filter_eq_nil_iff]
    intro e he
    simp [(hall e he).2]
  · rw [List.filter_eq_nil_iff]
    intro e he
    simp [(hall e he).1]

/-- A trace without any event of `q`. -/
theorem only_after_of_none (p q : Event → Bool) (l : List Event)
    (h : ∀ e ∈ l, q e = false) : only_after p q l := by
  intro pre e post hl hq
  have := h e (by rw [hl]; simp)
  rw [this] at hq
  simp at hq

/-- Events that are not of `q` may be put in front of a trace. -/
theorem only_after_append (p q : Event → Bool) (l1 l2 : List Event)
    (h1 : ∀ e ∈ l1, q e = false) (h2 : only_after p q l2) : only_after p q (l1 ++ l2) := by
  induction l1 with
  | nil => simpa using h2
  | cons a l ih =>
    rw [List.cons_append, only_after_cons]
    exact ⟨h1 a (by simp), Or.inr (ih (fun e he => h1 e (by simp [he])))⟩

/-- The register and PUBLISH calls of a run whose topic resolution went on
without REGISTER: no REGISTER, and every PUBLISH, of which there is one at
least, is the call made with the variables the topic resolution left. -/
theorem main_publish_no_register (env : Env) (opts : List Opt) (g : Globals) (w1 w2 : World)
    (hp : parse_opts opts = .ok g) (hs : env.sock ≠ 0)
    (hc : connect env (start g) = .ok w1) (hr : resolve_topic env w1 = .ok w2)
    (ht : w2.trace = w1.trace) :
    (main env opts).trace.filter is_send_register = []
    ∧ publish_call w2.g ∈ (main env opts).trace
    ∧ ∀ e ∈ (main env opts).trace, is_publish e = true → e = publish_call w2.g := by
  obtain ⟨-, hreg1, -, hnp1⟩ := after_connect_no_register_no_publish env g w1 hc
  obtain ⟨evs, hevs, htr⟩ := main_after_resolve env opts g w1 w2
    (fun e => is_send_register e = false ∧ (is_publish e = true → e = publish_call w2.g))
    hp hs hc hr
    (by intro p; simp [is_send_register, is_publish])
    (by intro r; simp [is_send_register, is_publish])
    (by intro r; simp [is_send_register, is_publish])
    (by intro r; simp [is_send_register, is_publish])
    (by simp [is_send_register, is_publish])
    (by simp [is_send_register, publish_call])
    (by simp [is_send_register, is_publish])
    (by simp [is_send_register, is_publish])
    (by simp [is_send_register, is_publish])
    (by simp [is_send_register, is_publish])
  rw [htr, ht]
  refine ⟨?_, by simp, ?_⟩
  · rw [List.filter_append, hreg1, List.nil_append, List.filter_eq_nil_iff]
    intro e he
    rcases List.mem_cons.1 he with rfl | he
    · simp [is_send_register, publish_call]
    · simp [(hevs e he).1]
  · intro e he hpub
    rcases List.mem_append.1 he with he | he
    · rw [hnp1 e he] at hpub; simp at hpub
    · rcases List.mem_cons.1 he with rfl | he
      · rfl
      · exact (hevs e he).2 hpub

/-- The run of `main` at QoS 0 from the end of the topic resolution on: one
PUBLISH, one DISCONNECT, one receive, the warning if the reply is not a
DISCONNECT, and return status 0. -/
theorem main_qos0_after_resolve (env : Env) (opts : List Opt) (g : Globals) (w1 w2 : World)
    (hp : parse_opts opts = .ok g) (hs : env.sock ≠ 0)
    (hc : connect env (start g) = .ok w1) (hr : resolve_topic env w1 = .ok w2)
    (hq : w2.g.qos = 0) :
    main env opts =
      { trace := w2.trace ++ [publish_call w2.g, Event.send_disconnect,
            Event.receive_packet (env.recv w2.nrecv)]
          ++ (if has_type (env.recv w2.nrecv) PacketType.MQTT_SN_TYPE_DISCONNECT = true then []
              else [Event.stderr Msg.disconnect_not_acked])
          ++ [Event.close, Event.cleanup],
        outcome := Outcome.ret 0 } := by
  rw [main_of_session env opts g hp hs]
  simp only [session, hc, hr]
  rw [publish_other env w2 (by rw [hq]; decide)]
  simp only
  rw [disconnect_eq env _ (by simp [hq])]
  simp

/-- A run that `parse_opts` ends is an `exit(-1)` after messages on standard
error only. -/
theorem parse_opts_error_exit (opts : List Opt) (r : Run) (h : parse_opts opts = .error r) :
    r.outcome = Outcome.exit (-1) ∧ ∀ e ∈ r.trace, ∃ m, e = Event.stderr m := by
  rcases parse_opts_error opts r h with rfl | rfl | rfl | rfl <;> simp [usage]

/-- When a topic name is set whenever the topic id is 0, the topic resolution
ends the run only with `exit(-1)`. -/
theorem resolve_error_exit (env : Env) (w : World) (r : Run)
    (h : resolve_topic env w = .error r)
    (hname : w.g.topic_id = 0 → w.g.topic_name.isSome = true) :
    r.outcome = Outcome.exit (-1) := by
  unfold resolve_topic at h
  simp only [mqtt_sn_receive_regack, say] at h
  split at h
  · simp at h
  · rename_i hid
    split at h
    · rename_i hn
      have := hname (by simpa using hid)
      rw [hn] at this
      simp at this
    · split_ifs at h
      · split at h
        · simp at h
        · rename_i heq
          simp at h; subst h
          split at heq
          · split_ifs at heq
            simp at heq; subst heq
            rfl
          · simp at heq; subst heq
            rfl

/-- Every run of `main` ends with `exit(-1)` or with `return 0`. -/
theorem main_outcome (env : Env) (opts : List Opt) :
    (main env opts).outcome = Outcome.exit (-1) ∨ (main env opts).outcome = Outcome.ret 0 := by
  cases hp : parse_opts opts with
  | error r =>
    rw [main_of_parse_error env opts r hp]
    exact Or.inl (parse_opts_error_exit opts r hp).1
  | ok g =>
    by_cases hs : env.sock = 0
    · right
      simp [main, hp, hs]
    · rw [main_of_session env opts g hp hs]
      obtain ⟨-, -, -, hone, -⟩ := check_opts_ok g g (parse_opts_ok opts g hp).2
      cases hc : connect env (start g) with
      | error r =>
        simp only [session, hc]
        exact Or.inl (connect_error env _ r hc).1
      | ok w1 =>
        have hg1 := (connect_ok env _ _ hc).1
        cases hr : resolve_topic env w1 with
        | error r =>
          simp only [session, hc, hr]
          left
          apply resolve_error_exit env w1 r hr
          intro hid
          rw [hg1] at hid ⊢
          simp only [start] at hid ⊢
          rcases hone with ⟨h1, _⟩ | ⟨_, h2⟩
          · exact h1
          · exact absurd hid h2
        | ok w2 =>
          cases hpub : publish env w2 with
          | error r =>
            simp only [session, hc, hr, hpub]
            exact Or.inl (publish_error env w2 r hpub).1
          | ok w3 =>
            obtain ⟨w4, evs, hd, -⟩ := disconnect_ok env w3
            simp only [session, hc, hr, hpub, hd]
            exact Or.inr trivial

/-- No PUBLISH in a run that the topic resolution ends. -/
theorem resolve_event_not_publish_mem (env : Env) (w : World) (r : Run)
    (h : resolve_topic env w = .error r) (hw : ∀ e ∈ w.trace, is_publish e = false) :
    ∀ e ∈ r.trace, is_publish e = false := by
  obtain ⟨evs, ht, hk⟩ := resolve_error env w r h
  rw [ht]
  intro e he
  rcases List.mem_append.1 he with he | he
  · exact hw e he
  · exact resolve_event_not_publish e (hk e he)

/-- No PUBLISH up to the end of the topic resolution. -/
theorem resolve_ok_not_publish_mem (env : Env) (w w2 : World)
    (h : resolve_topic env w = .ok w2) (hw : ∀ e ∈ w.trace, is_publish e = false) :
    ∀ e ∈ w2.trace, is_publish e = false := by
  obtain ⟨-, -, -, evs, ht, hk⟩ := resolve_ok env w w2 h
  rw [ht]
  intro e he
  rcases List.mem_append.1 he with he | he
  · exact hw e he
  · exact resolve_event_not_publish e (hk e he)

/-- Every PUBLISH of a run of `main` is the call made with the variables that
the topic resolution left. -/
theorem main_publish_mem (env : Env) (opts : List Opt) (e : Event)
    (he : e ∈ (main env opts).trace) (hpub : is_publish e = true) :
    ∃ g w1 w2, parse_opts opts = .ok g ∧ connect env (start g) = .ok w1
      ∧ resolve_topic env w1 = .ok w2 ∧ e = publish_call w2.g := by
  cases hp : parse_opts opts with
  | error r =>
    rw [main_of_parse_error env opts r hp] at he
    obtain ⟨m, rfl⟩ := (parse_opts_error_exit opts r hp).2 e he
    simp [is_publish] at hpub
  | ok g =>
    by_cases hs : env.sock = 0
    · simp [main, hp, hs, start] at he
      rcases he with rfl | rfl | rfl <;> simp [is_publish] at hpub
    · cases hc : connect env (start g) with
      | error r =>
        rw [main_of_session env opts g hp hs] at he
        simp only [session, hc] at he
        obtain ⟨-, evs, ht, hk⟩ := connect_error env _ r hc
        rw [ht] at he
        rcases List.mem_append.1 he with he | he
        · simp [start] at he
          rcases he with rfl | rfl <;> simp [is_publish] at hpub
        · rw [connect_event_not_publish e (hk e he)] at hpub
          simp at hpub
      | ok w1 =>
        obtain ⟨-, -, -, hnp1⟩ := after_connect_no_register_no_publish env g w1 hc
        cases hr : resolve_topic env w1 with
        | error r =>
          rw [main_of_session env opts g hp hs] at he
          simp only [session, hc, hr] at he
          rw [resolve_event_not_publish_mem env w1 r hr hnp1 e he] at hpub
          simp at hpub
        | ok w2 =>
          refine ⟨g, w1, w2, rfl, hc, hr, ?_⟩
          obtain ⟨evs, hevs, htr⟩ := main_after_resolve env opts g w1 w2
            (fun e => is_publish e = true → e = publish_call w2.g)
            hp hs hc hr
            (by intro p; simp [is_publish])
            (by intro r; simp [is_publish])
            (by intro r; simp [is_publish])
            (by intro r; simp [is_publish])
            (by simp [is_publish])
            (by simp)
            (by simp [is_publish])
            (by simp [is_publish])
            (by simp [is_publish])
            (by simp [is_publish])
          rw [htr] at he
          rcases List.mem_append.1 he with he | he
          · rw [resolve_ok_not_publish_mem env w1 w2 hr hnp1 e he] at hpub
            simp at hpub
          · rcases List.mem_cons.1 he with rfl | he
            · rfl
            · exact hevs e he hpub

/-- The topic id type after the topic resolution: PREDEFINED with the unchanged
non-zero topic id, or SHORT or NORMAL when the topic id was 0. -/
theorem resolve_type (env : Env) (w w2 : World) (h : resolve_topic env w = .ok w2)
    (hty : w.g.topic_id_type = TopicType.MQTT_SN_TOPIC_TYPE_NORMAL) :
    (w.g.topic_id ≠ 0 ∧ w2.g.topic_id = w.g.topic_id
        ∧ w2.g.topic_id_type = TopicType.MQTT_SN_TOPIC_TYPE_PREDEFINED)
    ∨ (w.g.topic_id = 0
        ∧ (w2.g.topic_id_type = TopicType.MQTT_SN_TOPIC_TYPE_SHORT
          ∨ w2.g.topic_id_type = TopicType.MQTT_SN_TOPIC_TYPE_NORMAL)) := by
  unfold resolve_topic at h
  simp only [mqtt_sn_receive_regack, say] at h
  split at h
  · rename_i hid
    simp at h; subst h
    left
    exact ⟨by simpa using hid, rfl, rfl⟩
  · rename_i hid
    have hid0 : w.g.topic_id = 0 := by simpa using hid
    right
    refine ⟨hid0, ?_⟩
    split at h
    · simp at h
    · split_ifs at h
      · simp at h; subst h; exact Or.inl rfl
      · split at h
        · rename_i heq
          split at heq
          · split_ifs at heq
            simp at heq; simp at h; subst h; exact Or.inr rfl
          · simp at heq
        · simp at h
      · simp at h; subst h; exact Or.inr hty

/-- Among the answers 0 to `n` there is a first one that satisfies `f`, or none
does. -/
theorem first_ack (f : Nat → Bool) (n : Nat) :
    (∃ k, k ≤ n ∧ (∀ i, i < k → f i = false) ∧ f k = true) ∨ (∀ i, i ≤ n → f i = false) := by
  induction n with
  | zero =>
    by_cases h : f 0 = true
    · exact Or.inl ⟨0, le_refl _, by intro i hi; omega, h⟩
    · right
      intro i hi
      have : i = 0 := by omega
      subst this
      simpa using h
  | succ n ih =>
    rcases ih with ⟨k, hk, h1, h2⟩ | h
    · exact Or.inl ⟨k, by omega, h1, h2⟩
    · by_cases hn : f (n + 1) = true
      · exact Or.inl ⟨n + 1, le_refl _, fun i hi => h i (by omega), hn⟩
      · right
        intro i hi
        by_cases hi2 : i ≤ n
        · exact h i hi2
        · have : i = n + 1 := by omega
          subst this
          simpa using hn

/-- The receives in `k` rounds of the publish loop: `k`. -/
theorem retry_events_receives (env : Env) (g : Globals) :
    ∀ (k r n : Nat), ((retry_events env g k r n).filter is_receive).length = k := by
  intro k
  induction k with
  | zero => intro r n; simp [retry_events]
  | succ k ih =>
    intro r n
    simp [retry_events, List.filter_cons, is_receive, publish_call, ih]

/-- The values of `retries` in the warnings of `k` rounds entered at `r`:
`r`, `r + 1`, .., `r + k - 1`. -/
theorem retry_events_retrying (env : Env) (g : Globals) :
    ∀ (k r n : Nat), (retry_events env g k r n).filterMap retrying_value = List.range' r k := by
  intro k
  induction k with
  | zero => intro r n; simp [retry_events]
  | succ k ih =>
    intro r n
    simp [retry_events, List.filterMap_cons, retrying_value, publish_call, ih, List.range'_succ]

/-- The publish step at QoS 1 when none of the first 12 receives is a PUBACK. -/
theorem publish_silent (env : Env) (w : World) (hq : w.g.qos = 1)
    (hfail : ∀ i, i ≤ 11 →
      has_type (env.recv (w.nrecv + i)) PacketType.MQTT_SN_TYPE_PUBACK = false) :
    publish env w = .error
      { trace := w.trace ++ [publish_call w.g] ++ retry_events env w.g 11 0 w.nrecv
          ++ [Event.receive_packet (env.recv (w.nrecv + 11)),
              Event.stderr (Msg.retrying 11), Event.stderr (Msg.not_acked 12)],
        outcome := Outcome.exit (-1) } := by
  unfold publish
  have h := publish_loop_never env 11 0 (mqtt_sn_send_publish w) (by omega) hfail
  simp only [mqtt_sn_send_publish, say] at h ⊢
  rw [h]
  simp [hq, publish_call]

/-! ## The will and the raw option values in `parse_opts` -/

/-- The converse of `getopt_loop_without_will`: when the option loop returns on
the command line without its `-w` and `-W` options, it returns on the whole
command line too, from a state that differs in the will variables only, with
the same result but for the will variables. -/
theorem getopt_loop_with_will (opts : List Opt) :
    ∀ (a b g1 : Globals), erase_will a = erase_will b →
      getopt_loop b (without_will opts) = .ok g1 →
      ∃ g, getopt_loop a opts = .ok g ∧ erase_will g = erase_will g1 := by
  induction opts with
  | nil =>
    intro a b g1 hab h
    simp [without_will, getopt_loop] at h
    subst h
    exact ⟨a, by simp [getopt_loop], hab⟩
  | cons o rest ih =>
    intro a b g1 hab h
    have hab2 := hab
    simp only [erase_will, Globals.mk.injEq] at hab2
    cases o <;>
      simp only [without_will, List.filter_cons, getopt_loop, parse_opt, if_true,
             Bool.false_eq_true, if_false] at h ⊢ <;>
      first
        | (refine ih _ _ g1 ?_ h
           simp [erase_will, hab2])
        | simp at h

/-- The checks of `parse_opts` do not read the will variables: a configuration
that differs from an accepted one in the will variables only is accepted. -/
theorem check_opts_of_erase_will (g g1 : Globals) (he : erase_will g = erase_will g1)
    (h : check_opts g1 = .ok g1) : check_opts g = .ok g := by
  obtain ⟨-, hm, hq, ht, hs⟩ := check_opts_ok g1 g1 h
  have e1 : g.topic_name = g1.topic_name := by
    simpa [erase_will] using congrArg Globals.topic_name he
  have e2 : g.message_data = g1.message_data := by
    simpa [erase_will] using congrArg Globals.message_data he
  have e3 : g.topic_id = g1.topic_id := by
    simpa [erase_will] using congrArg Globals.topic_id he
  have e4 : g.qos = g1.qos := by
    simpa [erase_will] using congrArg Globals.qos he
  exact check_opts_accept g (by rw [e2]; exact hm) (by rw [e4]; exact hq)
    (by rw [e1, e3]; exact ht) (by rw [e4, e3, e1]; exact hs)

/-- Two command lines that differ in their `-w` and `-W` options only: when one
is accepted so is the other, with the same configuration but for the will. -/
theorem parse_opts_will_free (opts opts2 : List Opt) (g : Globals)
    (hw : without_will opts2 = without_will opts) (h : parse_opts opts = .ok g) :
    ∃ g2, parse_opts opts2 = .ok g2 ∧ erase_will g2 = erase_will g := by
  obtain ⟨hl, hc⟩ := parse_opts_ok opts g h
  obtain ⟨g1, h1, h2, -, -⟩ := getopt_loop_without_will opts {} {} g rfl hl
  rw [← hw] at h1
  obtain ⟨g2, h3, h4⟩ := getopt_loop_with_will opts2 {} {} g1 rfl h1
  refine ⟨g2, ?_, h4.trans h2⟩
  rw [parse_opts_of_loop _ _ h3]
  exact check_opts_of_erase_will g2 g (h4.trans h2) hc

/-- At `qos = 1` the first packet that `main` sends is CONNECT with the flags
clean-session and will, whatever the will variables hold. -/
theorem main_qos1_first_send (env : Env) (opts : List Opt) (g : Globals)
    (hp : parse_opts opts = .ok g) (hq : g.qos = 1) (hs : env.sock ≠ 0) :
    ((main env opts).trace.filter is_send).head?
        = some (Event.send_connect g.client_id (MQTT_SN_FLAG_CLEAN ||| MQTT_SN_FLAG_WILL)
            g.keep_alive) := by
  have hc := connect_qos1 env (start g) hq
  by_cases h0 : has_type (env.recv 0) PacketType.MQTT_SN_TYPE_WILLTOPICREQ = true
  · by_cases h1 : has_type (env.recv 1) PacketType.MQTT_SN_TYPE_WILLMSGREQ = true
    · by_cases h2 : has_type (env.recv 2) PacketType.MQTT_SN_TYPE_CONNACK = true
      · simp only [start, Nat.zero_add, h0, h1, h2, if_true] at hc
        obtain ⟨tail, ht, -⟩ := main_after_connect env opts g _ hp hs hc
        rw [ht]
        simp [is_send]
      · rw [main_of_session env opts g hp hs]
        simp only [session, hc]
        simp [start, h0, h1, h2, is_send]
    · rw [main_of_session env opts g hp hs]
      simp only [session, hc]
      simp [start, h0, h1, is_send]
  · rw [main_of_session env opts g hp hs]
    simp only [session, hc]
    simp [start, h0, is_send]

/-- At `qos = 1`, when a WILLTOPICREQ answers the CONNECT, `main` sends WILLTOPIC
with the stored will topic, set or not. -/
theorem main_qos1_will_topic (env : Env) (opts : List Opt) (g : Globals)
    (hp : parse_opts opts = .ok g) (hq : g.qos = 1) (hs : env.sock ≠ 0)
    (h0 : has_type (env.recv 0) PacketType.MQTT_SN_TYPE_WILLTOPICREQ = true) :
    Event.send_will_topic g.t_topic_name (MQTT_SN_FLAG_QOS_1 ||| MQTT_SN_FLAG_RETAIN)
      ∈ (main env opts).trace := by
  have hc := connect_qos1 env (start g) hq
  by_cases h1 : has_type (env.recv 1) PacketType.MQTT_SN_TYPE_WILLMSGREQ = true
  · by_cases h2 : has_type (env.recv 2) PacketType.MQTT_SN_TYPE_CONNACK = true
    · simp only [start, Nat.zero_add, h0, h1, h2, if_true] at hc
      obtain ⟨tail, ht, -⟩ := main_after_connect env opts g _ hp hs hc
      rw [ht]
      simp
    · rw [main_of_session env opts g hp hs]
      simp only [session, hc]
      simp [start, h0, h1, h2]
  · rw [main_of_session env opts g hp hs]
    simp only [session, hc]
    simp [start, h0, h1]

/-- C1 (what the code does): in a QoS 1 run whose socket was created, whose
connect/will handshake and topic resolution succeed, and in which no receive
of the publish step returns a PUBACK, `main` sends 12 PUBLISH packets (the
first send and 11 retries, one more than the 11 sends of the claim), reports
"tried 12 times" and ends with `exit(-1)`. -/
theorem C1_never_acked_sends_twelve (env : Env) (opts : List Opt) (g : Globals) (w1 w2 : World)
    (hp : parse_opts opts = .ok g) (hq : g.qos = 1) (hs : env.sock ≠ 0)
    (hc : connect env (start g) = .ok w1) (hr : resolve_topic env w1 = .ok w2)
    (hn : ∀ i, has_type (env.recv (w2.nrecv + i)) PacketType.MQTT_SN_TYPE_PUBACK = false) :
    ((main env opts).trace.filter is_publish).length = 12
    ∧ Event.stderr (Msg.not_acked 12) ∈ (main env opts).trace
    ∧ (main env opts).outcome = Outcome.exit (-1) := by
  have hq2 : w2.g.qos = 1 := by rw [(before_publish env g w1 w2 hc hr).1, hq]
  have hpre := before_publish_no_publish env g w1 w2 hc hr
  rw [main_of_session env opts g hp hs]
  simp only [session, hc, hr, publish_never env w2 hq2 hn]
  refine ⟨?_, ?_, ?_⟩
  · simp [List.filter_append, hpre, retry_events_publish, is_publish, publish_call,
      List.filter_cons]
  · simp
  · trivial

/-- Witness of C1: against the gateway `silent_recv`, `-q 1 -t ab -m x -w ab -W x`
sends 12 PUBLISH packets and exits with status -1. -/
theorem C1_never_acked_witness :
    (∀ i, has_type (silent_recv (3 + i)) PacketType.MQTT_SN_TYPE_PUBACK = false)
    ∧ ((main (env_of silent_recv) qos1_opts).trace.filter is_publish).length = 12
    ∧ Event.stderr (Msg.not_acked 12) ∈ (main (env_of silent_recv) qos1_opts).trace
    ∧ (main (env_of silent_recv) qos1_opts).outcome = Outcome.exit (-1) :=
  ⟨fun i => by rw [silent_recv_late]; rfl,
   C1_never_acked_sends_twelve (env_of silent_recv) qos1_opts _ _ _ rfl rfl (by decide) rfl rfl
    (fun i => by
      show has_type (silent_recv (3 + i)) PacketType.MQTT_SN_TYPE_PUBACK = false
      rw [silent_recv_late]; rfl)⟩

/-- C2: for `k ≤ 10`, in a QoS 1 run that reaches the publish step, if the first
`k` receives of the publish step are not a PUBACK and the next one is, then
`main` sends exactly `k + 1` PUBLISH packets, all with the same topic id, topic
id type, payload, qos and retain; the packets sent are those of the handshake
and topic resolution, then the `k + 1` PUBLISH, then one DISCONNECT; `main`
returns 0; and the "Send required .. but was successful" warning is written
if and only if `k ≥ 1`. -/
theorem C2_acked_after_k_failures (env : Env) (opts : List Opt) (g : Globals) (w1 w2 : World)
    (k : Nat)
    (hp : parse_opts opts = .ok g) (hq : g.qos = 1) (hs : env.sock ≠ 0)
    (hc : connect env (start g) = .ok w1) (hr : resolve_topic env w1 = .ok w2)
    (hk : k ≤ 10)
    (hfail : ∀ i, i < k →
      has_type (env.recv (w2.nrecv + i)) PacketType.MQTT_SN_TYPE_PUBACK = false)
    (hack : has_type (env.recv (w2.nrecv + k)) PacketType.MQTT_SN_TYPE_PUBACK = true) :
    (main env opts).trace.filter is_publish
        = List.replicate (k + 1)
            (Event.send_publish w2.g.topic_id w2.g.topic_id_type g.message_data 1 g.retain)
    ∧ (main env opts).trace.filter is_send
        = w2.trace.filter is_send
          ++ List.replicate (k + 1)
            (Event.send_publish w2.g.topic_id w2.g.topic_id_type g.message_data 1 g.retain)
          ++ [Event.send_disconnect]
    ∧ (main env opts).outcome = Outcome.ret 0
    ∧ ((∃ n, Event.stderr (Msg.send_required n) ∈ (main env opts).trace) ↔ 1 ≤ k) := by
  obtain ⟨hq2, hm2, hr2, -⟩ := before_publish env g w1 w2 hc hr
  have hq2 : w2.g.qos = 1 := by rw [hq2, hq]
  have hpre := before_publish_no_publish env g w1 w2 hc hr
  have hsr := before_publish_no_send_required env g w1 w2 hc hr
  have hcall : publish_call w2.g
      = Event.send_publish w2.g.topic_id w2.g.topic_id_type g.message_data 1 g.retain := by
    simp [publish_call, hq2, hm2, hr2]
  rw [main_of_session env opts g hp hs]
  simp only [session, hc, hr, publish_acked env k w2 hq2 (by omega) hfail hack]
  rw [disconnect_eq env _ (by simp [hq2])]
  simp only
  refine ⟨?_, ?_, ?_, ?_⟩
  · simp only [List.filter_append, hpre, retry_events_publish, hcall]
    by_cases hk0 : k = 0 <;>
      split_ifs <;> simp [hk0, is_publish, List.filter_cons, List.replicate_succ]
  · simp only [List.filter_append, retry_events_sends, hcall]
    by_cases hk0 : k = 0 <;>
      split_ifs <;> simp [hk0, is_send, List.filter_cons, List.replicate_succ]
  · trivial
  · constructor
    · rintro ⟨n, hn⟩
      by_contra hk0
      have hk0 : k = 0 := by omega
      subst hk0
      simp only [List.mem_append, retry_events] at hn
      split_ifs at hn <;> simp [hsr n, publish_call] at hn
    · intro hk1
      refine ⟨k, ?_⟩
      have hk0 : k ≠ 0 := by omega
      simp [hk0]

/-- Witness of C2 at `k = 3`: four identical PUBLISH packets, the warning, and
return status 0. -/
theorem C2_acked_witness :
    (main (env_of (gateway_recv 3)) qos1_opts).trace.filter is_publish
        = List.replicate 4 (Event.send_publish 24930 TopicType.MQTT_SN_TOPIC_TYPE_SHORT
            (some [120]) 1 false)
    ∧ (main (env_of (gateway_recv 3)) qos1_opts).outcome = Outcome.ret 0
    ∧ ((∃ n, Event.stderr (Msg.send_required n)
          ∈ (main (env_of (gateway_recv 3)) qos1_opts).trace) ↔ 1 ≤ 3) :=
  have h := C2_acked_after_k_failures (env_of (gateway_recv 3)) qos1_opts _ _ _ 3
    rfl rfl (by decide) rfl rfl (by decide)
    (fun i hi => by
      show has_type (gateway_recv 3 (3 + i)) PacketType.MQTT_SN_TYPE_PUBACK = false
      rw [gateway_recv_timeout 3 i hi]; rfl)
    (by
      show has_type (gateway_recv 3 (3 + 3)) PacketType.MQTT_SN_TYPE_PUBACK = true
      rw [gateway_recv_ack]; rfl)
  ⟨h.1, h.2.2.1, h.2.2.2⟩

/-- C3 (amended): `parse_opts` rejects every input that supplies a topic name
(`-t`) and a predefined topic id (`-T`) when the `-T` values are non-zero ids
(1 to 65535), and rejects every input that supplies neither `-t` nor `-T`; in
every configuration it accepts, exactly one of the topic name and a non-zero
topic id is set. -/
theorem C3_topic_exclusive (opts : List Opt) :
    ((∃ name, Opt.t name ∈ opts) → (∃ v, Opt.T v ∈ opts) →
        (∀ v, Opt.T v ∈ opts → 0 < v ∧ v < 65536) →
        ∃ r, parse_opts opts = .error r ∧ r.outcome = Outcome.exit (-1))
    ∧ ((∀ name, Opt.t name ∉ opts) → (∀ v, Opt.T v ∉ opts) → parse_opts opts = .error usage)
    ∧ (∀ g, parse_opts opts = .ok g →
        (g.topic_name.isSome = true ∧ g.topic_id = 0) ∨ (g.topic_name = none ∧ g.topic_id ≠ 0)) := by
  refine ⟨?_, ?_, ?_⟩
  · intro hn hT hr
    cases hl : getopt_loop {} opts with
    | error r => exact ⟨usage, parse_opts_of_loop_error opts r hl, rfl⟩
    | ok g =>
      rw [parse_opts_of_loop opts g hl]
      apply check_opts_both
      · exact (getopt_loop_topic_name _ _ _ hl).2 (Or.inr hn)
      · exact (getopt_loop_topic_id _ _ _ hl hr).2 (Or.inr hT)
  · intro hn hT
    cases hl : getopt_loop {} opts with
    | error r => exact parse_opts_of_loop_error opts r hl
    | ok g =>
      rw [parse_opts_of_loop opts g hl]
      apply check_opts_neither
      · have h := (getopt_loop_topic_name _ _ _ hl).not.2
          (by simp; exact hn)
        simpa using h
      · have h := (getopt_loop_topic_id _ _ _ hl (fun v hv => absurd hv (hT v))).not.2
          (by simp; exact hT)
        simpa using h
  · intro g hg
    exact (check_opts_ok g g (parse_opts_ok opts g hg).2).2.2.2.1

/-- Witness of C3: `-t ab -T 7 -m x` is rejected, and so is `-m x`. -/
theorem C3_topic_exclusive_witness :
    (∃ r, parse_opts [Opt.t [97, 98], Opt.T 7, Opt.m [120]] = .error r
      ∧ r.outcome = Outcome.exit (-1))
    ∧ parse_opts [Opt.m [120]] = .error usage :=
  ⟨(C3_topic_exclusive [Opt.t [97, 98], Opt.T 7, Opt.m [120]]).1
      ⟨[97, 98], by decide⟩ ⟨7, by decide⟩
      (fun v hv => by
        have : v = 7 := by simpa using hv
        subst this
        decide),
   (C3_topic_exclusive [Opt.m [120]]).2.1 (fun name => by simp) (fun v => by simp)⟩

/-- Counterexample to C3 as stated: `-t ab -T 0 -m x` supplies both a topic
name and a predefined topic id, and `parse_opts` accepts it (the stored topic
id 0 is the value that means that no topic id was given). -/
theorem C3_both_with_zero_id_accepted :
    parse_opts [Opt.t [97, 98], Opt.T 0, Opt.m [120]]
      = .ok { topic_name := some [97, 98], topic_id := 0, message_data := some [120] } := by
  rfl

/-- C4 (what the code does): `-q 256 -t ab -m x` is accepted by `parse_opts`,
with the 8-bit variable `qos` holding 0, although 256 is not one of -1, 0, 1. -/
theorem C4_qos_256_accepted :
    parse_opts [Opt.q 256, Opt.t [97, 98], Opt.m [120]]
      = .ok { qos := 0, topic_name := some [97, 98], message_data := some [120] } := by
  rfl

/-- C5 (amended): for every input that leaves `qos = -1` and a message after
the option loop: when a topic name and no topic id (`topic_id = 0`) are set,
`parse_opts` rejects the input with `exit(-1)` if and only if the length of
the name is not 2; when a non-zero predefined topic id and no name are set,
the input is accepted. -/
theorem C5_qos_n1_topic (opts : List Opt) (g : Globals)
    (hl : getopt_loop {} opts = .ok g) (hq : g.qos = -1)
    (hm : g.message_data.isSome = true) :
    (∀ name, g.topic_name = some name → g.topic_id = 0 →
        ((∃ r, parse_opts opts = .error r ∧ r.outcome = Outcome.exit (-1)) ↔ name.length ≠ 2))
    ∧ (g.topic_name = none → g.topic_id ≠ 0 → parse_opts opts = .ok g) := by
  rw [parse_opts_of_loop opts g hl]
  refine ⟨?_, ?_⟩
  · intro name hn hi
    rw [check_opts_qos_n1_name g name hq hm hn hi]
    by_cases h2 : name.length = 2
    · simp [h2]
    · simp [h2]
  · intro hn hi
    exact check_opts_qos_n1_id g hq hm hn hi

/-- Witness of C5: `-q -1 -m x -t abc` is rejected, the name having length 3. -/
theorem C5_qos_n1_topic_witness :
    ((∃ r, parse_opts [Opt.q (-1), Opt.m [120], Opt.t [97, 98, 99]] = .error r
        ∧ r.outcome = Outcome.exit (-1)) ↔ [(97 : Byte), 98, 99].length ≠ 2) :=
  (C5_qos_n1_topic [Opt.q (-1), Opt.m [120], Opt.t [97, 98, 99]] _ rfl (by decide) rfl).1
    [97, 98, 99] rfl rfl

/-- Counterexample to C5 as stated: `-q -1 -m x -T 0` gives a predefined topic
id and no name, and `parse_opts` rejects it (usage text, `exit(-1)`). -/
theorem C5_zero_id_alone_rejected :
    parse_opts [Opt.q (-1), Opt.m [120], Opt.T 0] = .error usage := by
  rfl

/-- C6 (what the code does): on a platform whose plain `char` is signed, the
two-character topic name with bytes 0x41 0xC3 is published with topic id
0x40C3 (type SHORT, no REGISTER), not with `(0x41 << 8) | 0xC3 = 0x41C3`: the
second char is sign-extended before it is added. -/
theorem C6_signed_char_short_topic :
    (main { char_signed := true, sock := 3, recv := no_recv }
        [Opt.q (-1), Opt.t [0x41, 0xC3], Opt.m [120]]).trace.filter is_send
      = [Event.send_publish 0x40C3 TopicType.MQTT_SN_TOPIC_TYPE_SHORT (some [120]) (-1) false]
    ∧ (0x41 <<< 8 ||| 0xC3 : Nat) = 0x41C3 := by
  decide

/-- C7: in every QoS 1 run of `main` whose socket was created, whatever the
network answers: the first packet sent is CONNECT with the flags clean-session
and will; no packet is received before CONNECT is sent; WILLTOPIC is sent only
after a WILLTOPICREQ was received; WILLMSG is sent only after WILLTOPIC was
sent and a WILLMSGREQ was received; the CONNACK is awaited only after WILLMSG
was sent; and no REGISTER or PUBLISH is sent before the CONNACK is awaited. -/
theorem C7_will_handshake_order (env : Env) (opts : List Opt) (g : Globals)
    (hp : parse_opts opts = .ok g) (hq : g.qos = 1) (hs : env.sock ≠ 0) :
    ((main env opts).trace.filter is_send).head?
        = some (Event.send_connect g.client_id (MQTT_SN_FLAG_CLEAN ||| MQTT_SN_FLAG_WILL)
            g.keep_alive)
    ∧ only_after is_send_connect is_receive (main env opts).trace
    ∧ only_after (received PacketType.MQTT_SN_TYPE_WILLTOPICREQ) is_send_will_topic
        (main env opts).trace
    ∧ only_after is_send_will_topic is_send_will_msg (main env opts).trace
    ∧ only_after (received PacketType.MQTT_SN_TYPE_WILLMSGREQ) is_send_will_msg
        (main env opts).trace
    ∧ only_after is_send_will_msg is_receive_connack (main env opts).trace
    ∧ only_after is_receive_connack (fun e => is_send_register e || is_publish e)
        (main env opts).trace := by
  have hc := connect_qos1 env (start g) hq
  by_cases h0 : has_type (env.recv 0) PacketType.MQTT_SN_TYPE_WILLTOPICREQ = true
  · by_cases h1 : has_type (env.recv 1) PacketType.MQTT_SN_TYPE_WILLMSGREQ = true
    · by_cases h2 : has_type (env.recv 2) PacketType.MQTT_SN_TYPE_CONNACK = true
      · simp only [start, Nat.zero_add, h0, h1, h2, if_true] at hc
        obtain ⟨tail, ht, -⟩ := main_after_connect env opts g _ hp hs hc
        rw [ht]
        simp [only_after_cons, is_send, is_receive, is_send_connect, received,
          is_send_will_topic, is_send_will_msg, is_receive_connack, is_send_register,
          is_publish, h0, h1]
      · rw [main_of_session env opts g hp hs]
        simp only [session, hc]
        simp [start, h0, h1, h2, only_after_cons, only_after_nil, is_send, is_receive,
          is_send_connect, received, is_send_will_topic, is_send_will_msg,
          is_receive_connack, is_send_register, is_publish]
    · rw [main_of_session env opts g hp hs]
      simp only [session, hc]
      simp [start, h0, h1, only_after_cons, only_after_nil, is_send, is_receive,
        is_send_connect, received, is_send_will_topic, is_send_will_msg,
        is_receive_connack, is_send_register, is_publish]
  · rw [main_of_session env opts g hp hs]
    simp only [session, hc]
    simp [start, h0, only_after_cons, only_after_nil, is_send, is_receive,
      is_send_connect, received, is_send_will_topic, is_send_will_msg,
      is_receive_connack, is_send_register, is_publish]

/-- Witness of C7: the run of `-q 1 -t ab -m x -w ab -W x` against the gateway
`silent_recv`. -/
theorem C7_will_handshake_order_witness :
    parse_opts qos1_opts = .ok qos1_globals
    ∧ ((main (env_of silent_recv) qos1_opts).trace.filter is_send).head?
        = some (Event.send_connect none (MQTT_SN_FLAG_CLEAN ||| MQTT_SN_FLAG_WILL) 1)
    ∧ only_after (received PacketType.MQTT_SN_TYPE_WILLTOPICREQ) is_send_will_topic
        (main (env_of silent_recv) qos1_opts).trace
    ∧ only_after is_receive_connack (fun e => is_send_register e || is_publish e)
        (main (env_of silent_recv) qos1_opts).trace :=
  have h := C7_will_handshake_order (env_of silent_recv) qos1_opts qos1_globals rfl rfl
    (by decide)
  ⟨rfl, h.1, h.2.2.1, h.2.2.2.2.2.2⟩

/-- C8: in a QoS 1 run whose socket was created, if the packet received after
CONNECT is absent or not a WILLTOPICREQ, the run is CONNECT, the receive, the
WILLTOPICREQ error message and `exit(-1)`; if it is a WILLTOPICREQ and the next
received packet is absent or not a WILLMSGREQ, the run is CONNECT, the receive,
WILLTOPIC, the receive, the WILLMSGREQ error message and `exit(-1)`. The two
messages differ, and in both cases nothing else is sent and nothing is retried. -/
theorem C8_will_handshake_failure (env : Env) (opts : List Opt) (g : Globals)
    (hp : parse_opts opts = .ok g) (hq : g.qos = 1) (hs : env.sock ≠ 0) :
    (has_type (env.recv 0) PacketType.MQTT_SN_TYPE_WILLTOPICREQ = false →
      main env opts =
        { trace := [Event.set_debug g.debug, Event.create_socket g.mqtt_sn_host g.mqtt_sn_port,
            Event.send_connect g.client_id (MQTT_SN_FLAG_CLEAN ||| MQTT_SN_FLAG_WILL) g.keep_alive,
            Event.receive_packet (env.recv 0),
            Event.stderr Msg.no_willtopicreq],
          outcome := Outcome.exit (-1) })
    ∧ (has_type (env.recv 0) PacketType.MQTT_SN_TYPE_WILLTOPICREQ = true →
       has_type (env.recv 1) PacketType.MQTT_SN_TYPE_WILLMSGREQ = false →
      main env opts =
        { trace := [Event.set_debug g.debug, Event.create_socket g.mqtt_sn_host g.mqtt_sn_port,
            Event.send_connect g.client_id (MQTT_SN_FLAG_CLEAN ||| MQTT_SN_FLAG_WILL) g.keep_alive,
            Event.receive_packet (env.recv 0),
            Event.send_will_topic g.t_topic_name (MQTT_SN_FLAG_QOS_1 ||| MQTT_SN_FLAG_RETAIN),
            Event.receive_packet (env.recv 1),
            Event.stderr Msg.no_willmsgreq],
          outcome := Outcome.exit (-1) })
    ∧ Msg.no_willtopicreq ≠ Msg.no_willmsgreq := by
  have hc := connect_qos1 env (start g) hq
  refine ⟨?_, ?_, by decide⟩
  · intro h0
    rw [main_of_session env opts g hp hs]
    simp only [session, hc]
    simp [start, h0]
  · intro h0 h1
    rw [main_of_session env opts g hp hs]
    simp only [session, hc]
    simp [start, h0, h1]

/-- Witness of C8: `-q 1 -t ab -m x -w ab -W x` against a gateway that never
answers, and against one that only asks for the will topic. -/
theorem C8_will_handshake_failure_witness :
    main (env_of no_recv) qos1_opts =
        { trace := [Event.set_debug false,
            Event.create_socket qos1_globals.mqtt_sn_host qos1_globals.mqtt_sn_port,
            Event.send_connect none (MQTT_SN_FLAG_CLEAN ||| MQTT_SN_FLAG_WILL) 1,
            Event.receive_packet none,
            Event.stderr Msg.no_willtopicreq],
          outcome := Outcome.exit (-1) }
    ∧ main (env_of willtopicreq_only_recv) qos1_opts =
        { trace := [Event.set_debug false,
            Event.create_socket qos1_globals.mqtt_sn_host qos1_globals.mqtt_sn_port,
            Event.send_connect none (MQTT_SN_FLAG_CLEAN ||| MQTT_SN_FLAG_WILL) 1,
            Event.receive_packet (some { type := PacketType.MQTT_SN_TYPE_WILLTOPICREQ }),
            Event.send_will_topic (some [97, 98]) (MQTT_SN_FLAG_QOS_1 ||| MQTT_SN_FLAG_RETAIN),
            Event.receive_packet none,
            Event.stderr Msg.no_willmsgreq],
          outcome := Outcome.exit (-1) } :=
  ⟨(C8_will_handshake_failure (env_of no_recv) qos1_opts qos1_globals rfl rfl (by decide)).1 rfl,
   (C8_will_handshake_failure (env_of willtopicreq_only_recv) qos1_opts qos1_globals rfl rfl
      (by decide)).2.1 rfl rfl⟩

/-- C9: for every configuration accepted by `parse_opts` with `qos = -1`, in a
run whose socket was created and whatever the network would answer, `main`
sends one PUBLISH packet and nothing else, makes no receive call, and the
PUBLISH carries the topic id type PREDEFINED or SHORT. -/
theorem C9_qos_n1_single_publish (env : Env) (opts : List Opt) (g : Globals)
    (hp : parse_opts opts = .ok g) (hq : g.qos = -1) (hs : env.sock ≠ 0) :
    ∃ id ty,
      (ty = TopicType.MQTT_SN_TOPIC_TYPE_PREDEFINED ∨ ty = TopicType.MQTT_SN_TOPIC_TYPE_SHORT)
      ∧ main env opts =
        { trace := [Event.set_debug g.debug, Event.create_socket g.mqtt_sn_host g.mqtt_sn_port,
            Event.send_publish id ty g.message_data (-1) g.retain,
            Event.close, Event.cleanup],
          outcome := Outcome.ret 0 }
      ∧ (main env opts).trace.filter is_send
          = [Event.send_publish id ty g.message_data (-1) g.retain]
      ∧ (main env opts).trace.filter is_receive = [] := by
  obtain ⟨-, -, -, -, hshort⟩ := check_opts_ok g g (parse_opts_ok opts g hp).2
  have hmain : ∀ w2 : World, resolve_topic env (start g) = .ok w2 →
      w2.trace = (start g).trace → w2.nrecv = 0 →
      main env opts = { trace := (start g).trace ++ [publish_call w2.g, Event.close, Event.cleanup],
                        outcome := Outcome.ret 0 } := by
    intro w2 hr ht hn
    obtain ⟨hq2, -, -, -⟩ := resolve_ok env _ _ hr
    have hq2 : w2.g.qos = -1 := by rw [hq2]; exact hq
    rw [main_of_session env opts g hp hs]
    simp only [session, connect_qos_n1 env (start g) hq, hr]
    rw [publish_other env w2 (by rw [hq2]; decide)]
    simp only
    rw [disconnect_qos_n1 env ⟨w2.g, w2.nrecv, w2.trace ++ [publish_call w2.g]⟩ hq2]
    simp [ht]
  by_cases hid : g.topic_id = 0
  · obtain ⟨name, hn, hlen⟩ := hshort hq hid
    have hr : resolve_topic env (start g) = .ok
        { start g with g := { g with topic_id := short_topic_id env.char_signed name,
                                     topic_id_type := TopicType.MQTT_SN_TOPIC_TYPE_SHORT } } := by
      simp [resolve_topic, start, hid, hn, hlen]
    have h := hmain _ hr rfl rfl
    refine ⟨short_topic_id env.char_signed name, TopicType.MQTT_SN_TOPIC_TYPE_SHORT,
      Or.inr rfl, ?_, ?_, ?_⟩
    · rw [h]; simp [start, publish_call, hq]
    · rw [h]; simp [start, publish_call, hq, is_send]
    · rw [h]; simp [start, publish_call, is_receive]
  · have hr : resolve_topic env (start g) = .ok
        { start g with g := { g with
            topic_id_type := TopicType.MQTT_SN_TOPIC_TYPE_PREDEFINED } } := by
      simp [resolve_topic, start, hid]
    have h := hmain _ hr rfl rfl
    refine ⟨g.topic_id, TopicType.MQTT_SN_TOPIC_TYPE_PREDEFINED, Or.inl rfl, ?_, ?_, ?_⟩
    · rw [h]; simp [start, publish_call, hq]
    · rw [h]; simp [start, publish_call, hq, is_send]
    · rw [h]; simp [start, publish_call, is_receive]

/-- Witness of C9: `-q -1 -t ab -m x` sends one PUBLISH with a SHORT topic id. -/
theorem C9_qos_n1_single_publish_witness :
    ∃ id ty,
      (ty = TopicType.MQTT_SN_TOPIC_TYPE_PREDEFINED ∨ ty = TopicType.MQTT_SN_TOPIC_TYPE_SHORT)
      ∧ (main (env_of no_recv) [Opt.q (-1), Opt.t [97, 98], Opt.m [120]]).trace.filter is_send
          = [Event.send_publish id ty (some [120]) (-1) false]
      ∧ (main (env_of no_recv) [Opt.q (-1), Opt.t [97, 98], Opt.m [120]]).trace.filter
          is_receive = [] :=
  have h := C9_qos_n1_single_publish (env_of no_recv)
    [Opt.q (-1), Opt.t [97, 98], Opt.m [120]]
    { qos := -1, topic_name := some [97, 98], message_data := some [120] }
    (by rfl) (by rfl) (by decide)
  h.elim fun id h1 => h1.elim fun ty h2 => ⟨id, ty, h2.1, h2.2.2.1, h2.2.2.2⟩

/-- C10: in every run with `qos ≥ 0` whose publish step completes, `main` sends
exactly one DISCONNECT, makes one receive call, and returns 0 whatever that
call returns; the warning is written if and only if the reply is absent or is
not a DISCONNECT packet. -/
theorem C10_disconnect_lenient (env : Env) (opts : List Opt) (g : Globals) (w1 w2 w3 : World)
    (hp : parse_opts opts = .ok g) (hq : 0 ≤ g.qos) (hs : env.sock ≠ 0)
    (hc : connect env (start g) = .ok w1) (hr : resolve_topic env w1 = .ok w2)
    (hpub : publish env w2 = .ok w3) :
    (main env opts).outcome = Outcome.ret 0
    ∧ (main env opts).trace.count Event.send_disconnect = 1
    ∧ (Event.stderr Msg.disconnect_not_acked ∈ (main env opts).trace
        ↔ has_type (env.recv w3.nrecv) PacketType.MQTT_SN_TYPE_DISCONNECT = false)
    ∧ (main env opts).trace
        = w3.trace ++ [Event.send_disconnect, Event.receive_packet (env.recv w3.nrecv)]
          ++ (if has_type (env.recv w3.nrecv) PacketType.MQTT_SN_TYPE_DISCONNECT = true then []
              else [Event.stderr Msg.disconnect_not_acked])
          ++ [Event.close, Event.cleanup] := by
  obtain ⟨hq3, hnd, hnw⟩ := before_disconnect_trace env g w1 w2 w3 hc hr hpub
  rw [main_of_session env opts g hp hs]
  simp only [session, hc, hr, hpub]
  rw [disconnect_eq env w3 (by rw [hq3]; exact hq)]
  simp only
  refine ⟨trivial, ?_, ?_, trivial⟩
  · simp only [List.count_append, List.count_eq_zero.2 hnd]
    split_ifs <;> simp [List.count_cons]
  · by_cases hd : has_type (env.recv w3.nrecv) PacketType.MQTT_SN_TYPE_DISCONNECT = true
    · simp [hd, hnw]
    · simp [hd, hnw]

/-- Witness of C10: `-t ab -m x` against a gateway that acknowledges the
connection and never answers the DISCONNECT: one DISCONNECT, the warning, and
return status 0. -/
theorem C10_disconnect_lenient_witness :
    (main (env_of connack_only_recv) [Opt.t [97, 98], Opt.m [120]]).outcome = Outcome.ret 0
    ∧ (main (env_of connack_only_recv) [Opt.t [97, 98], Opt.m [120]]).trace.count
        Event.send_disconnect = 1
    ∧ Event.stderr Msg.disconnect_not_acked
        ∈ (main (env_of connack_only_recv) [Opt.t [97, 98], Opt.m [120]]).trace :=
  have h := C10_disconnect_lenient (env_of connack_only_recv) [Opt.t [97, 98], Opt.m [120]]
    { topic_name := some [97, 98], message_data := some [120] } _ _ _
    rfl (by decide) (by decide) rfl rfl rfl
  ⟨h.1, h.2.1, h.2.2.1.2 rfl⟩

/-- C11 (amended): `parse_opts` makes no check of the will. In every
configuration it accepts, the will topic is present exactly when `-w` was given
and the will payload exactly when `-W` was given. A command line is not
rejected for lacking either of them: the command line without its `-w` and `-W`
options is accepted too, and so is every command line that differs from it in
the `-w` and `-W` options only (one of them removed, both removed, or others
given), with the same configuration but for the will. With `qos = 1`, will
given or not, the first packet that `main` sends once the socket is created is
CONNECT with the flags clean-session and will, and when a WILLTOPICREQ answers
it `main` sends WILLTOPIC with the stored will topic, present or absent. -/
theorem C11_will_not_validated (env : Env) (opts : List Opt) (g : Globals)
    (hp : parse_opts opts = .ok g) :
    (g.t_topic_name.isSome = true ↔ ∃ s, Opt.w s ∈ opts)
    ∧ (g.t_message_data.isSome = true ↔ ∃ s, Opt.W s ∈ opts)
    ∧ parse_opts (without_will opts)
        = .ok { g with t_topic_name := none, t_message_data := none }
    ∧ (∀ opts2, without_will opts2 = without_will opts →
        ∃ g2, parse_opts opts2 = .ok g2
          ∧ { g2 with t_topic_name := none, t_message_data := none }
              = { g with t_topic_name := none, t_message_data := none })
    ∧ (g.qos = 1 → env.sock ≠ 0 →
        ((main env opts).trace.filter is_send).head?
            = some (Event.send_connect g.client_id (MQTT_SN_FLAG_CLEAN ||| MQTT_SN_FLAG_WILL)
                g.keep_alive)
        ∧ (has_type (env.recv 0) PacketType.MQTT_SN_TYPE_WILLTOPICREQ = true →
            Event.send_will_topic g.t_topic_name (MQTT_SN_FLAG_QOS_1 ||| MQTT_SN_FLAG_RETAIN)
              ∈ (main env opts).trace)) := by
  obtain ⟨hl, -⟩ := parse_opts_ok opts g hp
  obtain ⟨h1, h2⟩ := getopt_loop_will _ _ _ hl
  refine ⟨?_, ?_, parse_opts_without_will opts g hp,
    fun opts2 hw => parse_opts_will_free opts opts2 g hw hp,
    fun hq hs => ⟨main_qos1_first_send env opts g hp hq hs,
      main_qos1_will_topic env opts g hp hq hs⟩⟩
  · rw [h1]; simp
  · rw [h2]; simp

/-- Witness of C11: `-q 1 -t ab -m x -w ab -W x` without `-w` and `-W`, without
`-w` only and without `-W` only, and the first packet of its run. -/
theorem C11_will_not_validated_witness :
    parse_opts (without_will qos1_opts)
      = .ok { qos1_globals with t_topic_name := none, t_message_data := none }
    ∧ (∃ g2, parse_opts [Opt.q 1, Opt.t [97, 98], Opt.m [120], Opt.W [120]] = .ok g2
        ∧ { g2 with t_topic_name := none, t_message_data := none }
            = { qos1_globals with t_topic_name := none, t_message_data := none })
    ∧ (∃ g2, parse_opts [Opt.q 1, Opt.t [97, 98], Opt.m [120], Opt.w [97, 98]] = .ok g2
        ∧ { g2 with t_topic_name := none, t_message_data := none }
            = { qos1_globals with t_topic_name := none, t_message_data := none })
    ∧ ((main (env_of willtopicreq_only_recv) qos1_opts).trace.filter is_send).head?
        = some (Event.send_connect none (MQTT_SN_FLAG_CLEAN ||| MQTT_SN_FLAG_WILL) 1) :=
  have h := C11_will_not_validated (env_of willtopicreq_only_recv) qos1_opts qos1_globals rfl
  ⟨h.2.2.1, h.2.2.2.1 _ rfl, h.2.2.2.1 _ rfl, (h.2.2.2.2 rfl (by decide)).1⟩

/-- Counterexample to C11 as stated: `-q 1 -t ab -m x` has neither `-w` nor
`-W` and is accepted with `qos = 1`; against a gateway that asks for the will
topic, `main` sends CONNECT with the will flag and then WILLTOPIC without a
topic. -/
theorem C11_qos1_without_will_accepted :
    parse_opts [Opt.q 1, Opt.t [97, 98], Opt.m [120]]
      = .ok { qos := 1, topic_name := some [97, 98], message_data := some [120],
              t_topic_name := none, t_message_data := none }
    ∧ main (env_of willtopicreq_only_recv) [Opt.q 1, Opt.t [97, 98], Opt.m [120]]
      = { trace := [Event.set_debug false,
            Event.create_socket [49, 50, 55, 46, 48, 46, 48, 46, 49] [49, 56, 56, 51],
            Event.send_connect none (MQTT_SN_FLAG_CLEAN ||| MQTT_SN_FLAG_WILL) 1,
            Event.receive_packet (some { type := PacketType.MQTT_SN_TYPE_WILLTOPICREQ }),
            Event.send_will_topic none (MQTT_SN_FLAG_QOS_1 ||| MQTT_SN_FLAG_RETAIN),
            Event.receive_packet none,
            Event.stderr Msg.no_willmsgreq],
          outcome := Outcome.exit (-1) } :=
  ⟨rfl, rfl⟩

/-- C13: in a run with `qos ≥ 0` of an accepted configuration, whose socket was
created and whose connect step succeeds: (a) with a topic id `p`, no REGISTER
is sent, a PUBLISH is sent, and every PUBLISH carries `(p, PREDEFINED)`; (b)
with a topic name of length other than 2, exactly one REGISTER is sent, with
that name, no PUBLISH is sent before it, and when the register acknowledgment
arrives a PUBLISH is sent and every PUBLISH carries `(r, NORMAL)` for the id
`r` of the acknowledgment; (c) with a topic name of length 2, no REGISTER is
sent. -/
theorem C13_topic_resolution (env : Env) (opts : List Opt) (g : Globals) (w1 : World)
    (hp : parse_opts opts = .ok g) (hq : 0 ≤ g.qos) (hs : env.sock ≠ 0)
    (hc : connect env (start g) = .ok w1) :
    (g.topic_id ≠ 0 →
      (main env opts).trace.filter is_send_register = []
      ∧ Event.send_publish g.topic_id TopicType.MQTT_SN_TOPIC_TYPE_PREDEFINED
          g.message_data g.qos g.retain ∈ (main env opts).trace
      ∧ ∀ e ∈ (main env opts).trace, is_publish e = true →
          e = Event.send_publish g.topic_id TopicType.MQTT_SN_TOPIC_TYPE_PREDEFINED
            g.message_data g.qos g.retain)
    ∧ (∀ name, g.topic_name = some name → name.length ≠ 2 →
      (main env opts).trace.filter is_send_register = [Event.send_register (some name)]
      ∧ only_after is_send_register is_publish (main env opts).trace
      ∧ ∀ pk, env.recv w1.nrecv = some pk → pk.type = PacketType.MQTT_SN_TYPE_REGACK →
          Event.send_publish (pk.topic_id % 65536) TopicType.MQTT_SN_TOPIC_TYPE_NORMAL
              g.message_data g.qos g.retain ∈ (main env opts).trace
          ∧ ∀ e ∈ (main env opts).trace, is_publish e = true →
              e = Event.send_publish (pk.topic_id % 65536)
                TopicType.MQTT_SN_TOPIC_TYPE_NORMAL g.message_data g.qos g.retain)
    ∧ (∀ name, g.topic_name = some name → name.length = 2 →
      (main env opts).trace.filter is_send_register = []) := by
  obtain ⟨hg1, hreg1, hpub1, hnp1⟩ := after_connect_no_register_no_publish env g w1 hc
  obtain ⟨-, -, -, hone, -⟩ := check_opts_ok g g (parse_opts_ok opts g hp).2
  refine ⟨?_, ?_, ?_⟩
  · intro hid
    have hr := resolve_predefined env w1 (by rw [hg1]; exact hid)
    have h := main_publish_no_register env opts g w1 _ hp hs hc hr rfl
    simpa [publish_call, hg1] using h
  · intro name hn hl
    have hid : g.topic_id = 0 := by
      rcases hone with ⟨_, h0⟩ | ⟨h0, _⟩
      · exact h0
      · rw [hn] at h0; simp at h0
    have hr := resolve_register env w1 name (by rw [hg1]; exact hid) (by rw [hg1]; exact hn) hl
      (by rw [hg1]; exact hq)
    by_cases hack : has_type (env.recv w1.nrecv) PacketType.MQTT_SN_TYPE_REGACK = true
    · rw [if_pos hack] at hr
      obtain ⟨evs, hevs, htr⟩ := main_after_resolve env opts g w1 _
        (fun e => is_send_register e = false ∧ (is_publish e = true →
          e = Event.send_publish (((env.recv w1.nrecv).map Packet.topic_id).getD 0 % 65536)
            TopicType.MQTT_SN_TOPIC_TYPE_NORMAL g.message_data g.qos g.retain))
        hp hs hc hr
        (by intro p; simp [is_send_register, is_publish])
        (by intro r; simp [is_send_register, is_publish])
        (by intro r; simp [is_send_register, is_publish])
        (by intro r; simp [is_send_register, is_publish])
        (by simp [is_send_register, is_publish])
        (by simp [is_send_register, publish_call, hg1])
        (by simp [is_send_register, is_publish])
        (by simp [is_send_register, is_publish])
        (by simp [is_send_register, is_publish])
        (by simp [is_send_register, is_publish])
      simp only [publish_call, hg1] at htr
      rw [htr]
      refine ⟨?_, ?_, ?_⟩
      · simp only [List.filter_append, hreg1, List.nil_append]
        have : List.filter is_send_register evs = [] := by
          rw [List.filter_eq_nil_iff]
          intro e he
          simp [(hevs e he).1]
        simp [List.filter_cons, is_send_register, this]
      · rw [List.append_assoc]
        apply only_after_append _ _ _ _ hnp1
        simp [only_after_cons, is_send_register, is_publish]
      · intro pk hpk hty
        simp only [hpk, Option.map_some', Option.getD_some] at hevs ⊢
        refine ⟨by simp, ?_⟩
        intro e he hpub
        simp only [List.mem_append, List.mem_cons, List.mem_singleton, List.not_mem_nil,
          or_false] at he
        rcases he with (he | he | he) | he | he
        · rw [hnp1 e he] at hpub; simp at hpub
        · subst he; simp [is_publish] at hpub
        · subst he; simp [is_publish] at hpub
        · exact he
        · exact (hevs e he).2 hpub
    · rw [if_neg hack] at hr
      rw [main_of_session env opts g hp hs]
      simp only [session, hc, hr]
      refine ⟨?_, ?_, ?_⟩
      · simp [List.filter_append, hreg1, List.filter_cons, is_send_register]
      · apply only_after_of_none
        intro e he
        simp only [List.mem_append, List.mem_cons, List.mem_singleton, List.not_mem_nil,
          or_false] at he
        rcases he with he | he | he
        · exact hnp1 e he
        · subst he; rfl
        · subst he; rfl
      · intro pk hpk hty
        exfalso
        apply hack
        simp [hpk, has_type, hty]
  · intro name hn hl
    have hid : g.topic_id = 0 := by
      rcases hone with ⟨_, h0⟩ | ⟨h0, _⟩
      · exact h0
      · rw [hn] at h0; simp at h0
    have hr := resolve_short env w1 name (by rw [hg1]; exact hid) (by rw [hg1]; exact hn) hl
    exact (main_publish_no_register env opts g w1 _ hp hs hc hr rfl).1

/-- Witness of C13: `-t abc -m x` against the gateway `register_recv`: one
REGISTER for `abc`, and the PUBLISH carries the topic id 7 of the
acknowledgment with type NORMAL. -/
theorem C13_topic_resolution_witness :
    (main (env_of register_recv) [Opt.t [97, 98, 99], Opt.m [120]]).trace.filter
        is_send_register = [Event.send_register (some [97, 98, 99])]
    ∧ Event.send_publish 7 TopicType.MQTT_SN_TOPIC_TYPE_NORMAL (some [120]) 0 false
        ∈ (main (env_of register_recv) [Opt.t [97, 98, 99], Opt.m [120]]).trace :=
  have h := (C13_topic_resolution (env_of register_recv) [Opt.t [97, 98, 99], Opt.m [120]]
    { topic_name := some [97, 98, 99], message_data := some [120] } _
    rfl (by decide) (by decide) rfl).2.1 [97, 98, 99] rfl (by decide)
  ⟨h.1, (h.2.2 { type := PacketType.MQTT_SN_TYPE_REGACK, topic_id := 7 } rfl rfl).1⟩

/-- C14 (amended): the run of `main` at QoS 0 for an accepted configuration,
when the socket was created and the connection is acknowledged. With a topic
id or a two-character topic name: CONNECT (clean-session flag only, keep-alive
1), the awaited CONNACK, one PUBLISH, one DISCONNECT, one receive, return 0.
With a topic name to register whose acknowledgment arrives: the same with
REGISTER and the awaited REGACK before the PUBLISH. With a topic name to
register whose acknowledgment does not arrive: CONNECT, REGISTER, and a fatal
exit without PUBLISH or DISCONNECT. -/
theorem C14_qos0_flow (env : Env) (opts : List Opt) (g : Globals)
    (hp : parse_opts opts = .ok g) (hq : g.qos = 0) (hs : env.sock ≠ 0)
    (hack : has_type (env.recv 0) PacketType.MQTT_SN_TYPE_CONNACK = true) :
    (g.topic_id ≠ 0 →
      main env opts =
        { trace := [Event.set_debug g.debug, Event.create_socket g.mqtt_sn_host g.mqtt_sn_port,
              Event.send_connect g.client_id MQTT_SN_FLAG_CLEAN 1,
              Event.receive_connack (env.recv 0),
              Event.send_publish g.topic_id TopicType.MQTT_SN_TOPIC_TYPE_PREDEFINED
                g.message_data 0 g.retain,
              Event.send_disconnect, Event.receive_packet (env.recv 1)]
            ++ (if has_type (env.recv 1) PacketType.MQTT_SN_TYPE_DISCONNECT = true then []
                else [Event.stderr Msg.disconnect_not_acked])
            ++ [Event.close, Event.cleanup],
          outcome := Outcome.ret 0 })
    ∧ (∀ name, g.topic_name = some name → name.length = 2 →
      main env opts =
        { trace := [Event.set_debug g.debug, Event.create_socket g.mqtt_sn_host g.mqtt_sn_port,
              Event.send_connect g.client_id MQTT_SN_FLAG_CLEAN 1,
              Event.receive_connack (env.recv 0),
              Event.send_publish (short_topic_id env.char_signed name)
                TopicType.MQTT_SN_TOPIC_TYPE_SHORT g.message_data 0 g.retain,
              Event.send_disconnect, Event.receive_packet (env.recv 1)]
            ++ (if has_type (env.recv 1) PacketType.MQTT_SN_TYPE_DISCONNECT = true then []
                else [Event.stderr Msg.disconnect_not_acked])
            ++ [Event.close, Event.cleanup],
          outcome := Outcome.ret 0 })
    ∧ (∀ name pk, g.topic_name = some name → name.length ≠ 2 →
        env.recv 1 = some pk → pk.type = PacketType.MQTT_SN_TYPE_REGACK →
      main env opts =
        { trace := [Event.set_debug g.debug, Event.create_socket g.mqtt_sn_host g.mqtt_sn_port,
              Event.send_connect g.client_id MQTT_SN_FLAG_CLEAN 1,
              Event.receive_connack (env.recv 0),
              Event.send_register (some name), Event.receive_regack (some pk),
              Event.send_publish (pk.topic_id % 65536) TopicType.MQTT_SN_TOPIC_TYPE_NORMAL
                g.message_data 0 g.retain,
              Event.send_disconnect, Event.receive_packet (env.recv 2)]
            ++ (if has_type (env.recv 2) PacketType.MQTT_SN_TYPE_DISCONNECT = true then []
                else [Event.stderr Msg.disconnect_not_acked])
            ++ [Event.close, Event.cleanup],
          outcome := Outcome.ret 0 })
    ∧ (∀ name, g.topic_name = some name → name.length ≠ 2 →
        has_type (env.recv 1) PacketType.MQTT_SN_TYPE_REGACK = false →
      main env opts =
        { trace := [Event.set_debug g.debug, Event.create_socket g.mqtt_sn_host g.mqtt_sn_port,
              Event.send_connect g.client_id MQTT_SN_FLAG_CLEAN 1,
              Event.receive_connack (env.recv 0),
              Event.send_register (some name), Event.receive_regack (env.recv 1)],
          outcome := Outcome.exit (-1) }) := by
  obtain ⟨hka, -⟩ := parse_opts_keep_alive opts g hp
  obtain ⟨-, -, -, hone, -⟩ := check_opts_ok g g (parse_opts_ok opts g hp).2
  obtain ⟨w1, hw1, hc⟩ : ∃ w1 : World,
      w1 = { g := g, nrecv := 1,
             trace := [Event.set_debug g.debug, Event.create_socket g.mqtt_sn_host g.mqtt_sn_port,
               Event.send_connect g.client_id MQTT_SN_FLAG_CLEAN 1,
               Event.receive_connack (env.recv 0)] }
      ∧ connect env (start g) = .ok w1 := by
    refine ⟨_, rfl, ?_⟩
    rw [connect_qos0 env (start g) hq]
    simp [start, hack, hka]
  have hg1 : w1.g = g := by rw [hw1]
  have hn1 : w1.nrecv = 1 := by rw [hw1]
  have hid : ∀ name, g.topic_name = some name → g.topic_id = 0 := by
    intro name hn
    rcases hone with ⟨_, h0⟩ | ⟨h0, _⟩
    · exact h0
    · rw [hn] at h0; simp at h0
  refine ⟨?_, ?_, ?_, ?_⟩
  · intro h
    have hr := resolve_predefined env w1 (by rw [hg1]; exact h)
    rw [main_qos0_after_resolve env opts g _ _ hp hs hc hr (by simp [hg1, hq])]
    simp [publish_call, hq, hw1]
  · intro name hn hl
    have hr := resolve_short env w1 name (by rw [hg1]; exact hid name hn)
      (by rw [hg1]; exact hn) hl
    rw [main_qos0_after_resolve env opts g _ _ hp hs hc hr (by simp [hg1, hq])]
    simp [publish_call, hq, hw1]
  · intro name pk hn hl hpk hty
    have hr := resolve_register env w1 name (by rw [hg1]; exact hid name hn)
      (by rw [hg1]; exact hn) hl (by rw [hg1, hq])
    simp only [hn1, hpk, has_type, hty, beq_self_eq_true, if_true, Option.map_some',
      Option.getD_some] at hr
    rw [main_qos0_after_resolve env opts g _ _ hp hs hc hr (by simp [hg1, hq])]
    simp [publish_call, hq, hw1]
  · intro name hn hl hreg
    have hr := resolve_register env w1 name (by rw [hg1]; exact hid name hn)
      (by rw [hg1]; exact hn) hl (by rw [hg1, hq])
    simp only [hn1, hreg, Bool.false_eq_true, if_false] at hr
    rw [main_of_session env opts g hp hs]
    simp only [session, hc, hr]
    simp [hw1]

/-- Witness of C14: `-t abc -m x` against the gateway `register_recv`. -/
theorem C14_qos0_flow_witness :
    main (env_of register_recv) [Opt.t [97, 98, 99], Opt.m [120]] =
      { trace := [Event.set_debug false,
            Event.create_socket [49, 50, 55, 46, 48, 46, 48, 46, 49] [49, 56, 56, 51],
            Event.send_connect none MQTT_SN_FLAG_CLEAN 1,
            Event.receive_connack (some { type := PacketType.MQTT_SN_TYPE_CONNACK }),
            Event.send_register (some [97, 98, 99]),
            Event.receive_regack (some { type := PacketType.MQTT_SN_TYPE_REGACK, topic_id := 7 }),
            Event.send_publish 7 TopicType.MQTT_SN_TOPIC_TYPE_NORMAL (some [120]) 0 false,
            Event.send_disconnect, Event.receive_packet none,
            Event.stderr Msg.disconnect_not_acked, Event.close, Event.cleanup],
        outcome := Outcome.ret 0 } :=
  (C14_qos0_flow (env_of register_recv) [Opt.t [97, 98, 99], Opt.m [120]]
    { topic_name := some [97, 98, 99], message_data := some [120] }
    rfl rfl (by decide) rfl).2.2.1 [97, 98, 99]
    { type := PacketType.MQTT_SN_TYPE_REGACK, topic_id := 7 } rfl (by decide) rfl rfl

/-- Counterexample to C14 as stated: `-t abc -m x` against a gateway that
acknowledges the connection and never answers the REGISTER: the packets sent
are CONNECT and REGISTER, and the run ends with `exit(-1)` without PUBLISH or
DISCONNECT. -/
theorem C14_register_not_acked :
    main (env_of connack_only_recv) [Opt.t [97, 98, 99], Opt.m [120]]
      = { trace := [Event.set_debug false,
            Event.create_socket [49, 50, 55, 46, 48, 46, 48, 46, 49] [49, 56, 56, 51],
            Event.send_connect none MQTT_SN_FLAG_CLEAN 1,
            Event.receive_connack (some { type := PacketType.MQTT_SN_TYPE_CONNACK }),
            Event.send_register (some [97, 98, 99]),
            Event.receive_regack none],
          outcome := Outcome.exit (-1) } := by
  rfl

/-- C15: the read of a NULL `topic_name` is unreachable: no run that
`parse_opts` ends and no run of `main` ends in the fault of `strlen(NULL)`,
because in every accepted configuration `topic_id = 0` implies that a topic
name is set. -/
theorem C15_topic_name_never_null (env : Env) (opts : List Opt) :
    (∀ r, parse_opts opts = .error r → r.outcome ≠ Outcome.fault)
    ∧ (main env opts).outcome ≠ Outcome.fault
    ∧ (∀ g, parse_opts opts = .ok g → g.topic_id = 0 → g.topic_name.isSome = true) := by
  refine ⟨?_, ?_, ?_⟩
  · intro r hr
    rw [(parse_opts_error_exit opts r hr).1]
    decide
  · rcases main_outcome env opts with h | h <;> rw [h] <;> decide
  · intro g hg hid
    obtain ⟨-, -, -, hone, -⟩ := check_opts_ok g g (parse_opts_ok opts g hg).2
    rcases hone with ⟨h1, _⟩ | ⟨_, h2⟩
    · exact h1
    · exact absurd hid h2

/-- C16: when every `-T` value is congruent to 0 modulo 65536, `parse_opts` and
`main` do exactly what they do on the command line without the `-T` options;
without a `-t` option the input is rejected with the usage text; the input is
never rejected as "both"; and every PUBLISH carries the type SHORT or NORMAL.
In no run at all does a PUBLISH carry the type PREDEFINED with the topic id 0. -/
theorem C16_zero_topic_id_is_absent (env : Env) (opts : List Opt) :
    ((∀ v, Opt.T v ∈ opts → v % 65536 = 0) →
      parse_opts opts = parse_opts (without_T opts)
      ∧ main env opts = main env (without_T opts)
      ∧ ((∀ name, Opt.t name ∉ opts) → parse_opts opts = .error usage)
      ∧ parse_opts opts
          ≠ .error { trace := [Event.stderr Msg.not_both], outcome := Outcome.exit (-1) }
      ∧ (∀ id ty d q r, Event.send_publish id ty d q r ∈ (main env opts).trace →
          ty = TopicType.MQTT_SN_TOPIC_TYPE_SHORT ∨ ty = TopicType.MQTT_SN_TOPIC_TYPE_NORMAL))
    ∧ (∀ d q r, Event.send_publish 0 TopicType.MQTT_SN_TOPIC_TYPE_PREDEFINED d q r
          ∉ (main env opts).trace) := by
  have key : ∀ id ty d q r, Event.send_publish id ty d q r ∈ (main env opts).trace →
      ∃ g, parse_opts opts = .ok g ∧
        ((g.topic_id ≠ 0 ∧ id = g.topic_id ∧ ty = TopicType.MQTT_SN_TOPIC_TYPE_PREDEFINED)
        ∨ (g.topic_id = 0 ∧ (ty = TopicType.MQTT_SN_TOPIC_TYPE_SHORT
            ∨ ty = TopicType.MQTT_SN_TOPIC_TYPE_NORMAL))) := by
    intro id ty d q r hmem
    obtain ⟨g, w1, w2, hp, hc, hr, he⟩ := main_publish_mem env opts _ hmem rfl
    have hg1 : w1.g = g := by simpa [start] using (connect_ok env _ _ hc).1
    have hty := (parse_opts_keep_alive opts g hp).2
    simp only [publish_call, Event.send_publish.injEq] at he
    obtain ⟨rfl, rfl, -, -, -⟩ := he
    refine ⟨g, hp, ?_⟩
    rcases resolve_type env w1 w2 hr (by rw [hg1]; exact hty) with ⟨a, b, c⟩ | ⟨a, b⟩
    · left; rw [hg1] at a b; exact ⟨a, b, c⟩
    · right; rw [hg1] at a; exact ⟨a, b⟩
  refine ⟨?_, ?_⟩
  · intro hT
    have hpe := parse_opts_without_T opts hT
    refine ⟨hpe, main_congr env _ _ hpe, ?_, ?_, ?_⟩
    · intro hn
      cases hl : getopt_loop {} opts with
      | error r => exact parse_opts_of_loop_error opts r hl
      | ok g =>
        rw [parse_opts_of_loop opts g hl]
        apply check_opts_neither
        · have h := (getopt_loop_topic_name _ _ _ hl).not.2 (by simp; exact hn)
          simpa using h
        · exact getopt_loop_topic_id_zero opts hT {} g rfl hl
    · cases hl : getopt_loop {} opts with
      | error r =>
        rw [parse_opts_of_loop_error opts r hl]
        simp [usage]
      | ok g =>
        rw [parse_opts_of_loop opts g hl]
        exact check_opts_not_both g (getopt_loop_topic_id_zero opts hT {} g rfl hl)
    · intro id ty d q r hmem
      obtain ⟨g, hp, h⟩ := key id ty d q r hmem
      have h0 := getopt_loop_topic_id_zero opts hT {} g rfl (parse_opts_ok opts g hp).1
      rcases h with ⟨a, -, -⟩ | ⟨-, b⟩
      · exact absurd h0 a
      · exact b
  · intro d q r hmem
    obtain ⟨g, hp, h⟩ := key 0 _ d q r hmem
    rcases h with ⟨a, b, -⟩ | ⟨-, b⟩
    · exact a b.symm
    · rcases b with b | b <;> simp at b

/-- Witness of C16: `-t ab -T 65536 -m x` behaves as `-t ab -m x`. -/
theorem C16_zero_topic_id_is_absent_witness :
    parse_opts [Opt.t [97, 98], Opt.T 65536, Opt.m [120]]
      = parse_opts (without_T [Opt.t [97, 98], Opt.T 65536, Opt.m [120]])
    ∧ main (env_of connack_only_recv) [Opt.t [97, 98], Opt.T 65536, Opt.m [120]]
      = main (env_of connack_only_recv)
          (without_T [Opt.t [97, 98], Opt.T 65536, Opt.m [120]]) :=
  have h := (C16_zero_topic_id_is_absent (env_of connack_only_recv)
    [Opt.t [97, 98], Opt.T 65536, Opt.m [120]]).1
    (fun v hv => by
      have : v = 65536 := by simpa using hv
      subst this
      decide)
  ⟨h.1, h.2.1⟩

/-- C17: the QoS 1 publish step of `main` always ends, whatever the network
answers: with `k` the number of receives that are not a PUBACK before the
first PUBACK, it goes on after `k + 1` receives and `k + 1` PUBLISH sends when
`k ≤ 11`, and it ends the run with `exit(-1)` after 12 receives and 12 PUBLISH
sends otherwise; never more than 12 of either. The retry warnings show the
values 0, 1, .., `k - 1` of `retries`: one more for each failed receive. -/
theorem C17_publish_loop_bounded (env : Env) (w : World) (hq : w.g.qos = 1) :
    ∃ k evs, k ≤ 12
      ∧ (∀ i, i < k →
          has_type (env.recv (w.nrecv + i)) PacketType.MQTT_SN_TYPE_PUBACK = false)
      ∧ (evs.filter is_receive).length ≤ 12
      ∧ (evs.filter is_publish).length ≤ 12
      ∧ evs.filterMap retrying_value = List.range k
      ∧ ((k ≤ 11
            ∧ has_type (env.recv (w.nrecv + k)) PacketType.MQTT_SN_TYPE_PUBACK = true
            ∧ (evs.filter is_receive).length = k + 1
            ∧ (evs.filter is_publish).length = k + 1
            ∧ ∃ w1, publish env w = .ok w1 ∧ w1.trace = w.trace ++ evs
                ∧ w1.nrecv = w.nrecv + k + 1)
          ∨ (k = 12
            ∧ (evs.filter is_receive).length = 12
            ∧ (evs.filter is_publish).length = 12
            ∧ Event.stderr (Msg.not_acked 12) ∈ evs
            ∧ publish env w
                = .error { trace := w.trace ++ evs, outcome := Outcome.exit (-1) })) := by
  rcases first_ack (fun i => has_type (env.recv (w.nrecv + i)) PacketType.MQTT_SN_TYPE_PUBACK) 11
    with ⟨k, hk, hfail, hack⟩ | hfail
  · have h := publish_acked env k w hq hk hfail hack
    refine ⟨k, [publish_call w.g] ++ retry_events env w.g k 0 w.nrecv
        ++ [Event.receive_packet (env.recv (w.nrecv + k))]
        ++ (if k = 0 then [] else [Event.stderr (Msg.send_required k)]), by omega, hfail,
        ?_, ?_, ?_, ?_⟩
    · simp only [List.filter_append, List.length_append, retry_events_receives]
      split_ifs <;> simp [is_receive, publish_call, List.filter_cons] <;> omega
    · simp only [List.filter_append, List.length_append, retry_events_publish,
        List.length_replicate]
      split_ifs <;> simp [is_publish, publish_call, List.filter_cons] <;> omega
    · simp only [List.filterMap_append, retry_events_retrying]
      split_ifs <;> simp [retrying_value, publish_call, List.range_eq_range']
    · left
      refine ⟨hk, hack, ?_, ?_, _, h, by simp, rfl⟩
      · simp only [List.filter_append, List.length_append, retry_events_receives]
        split_ifs <;> simp [is_receive, publish_call, List.filter_cons]
      · simp only [List.filter_append, List.length_append, retry_events_publish,
          List.length_replicate]
        split_ifs <;> simp [is_publish, publish_call, List.filter_cons] <;> omega
  · have h := publish_silent env w hq hfail
    have hrec : (([publish_call w.g] ++ retry_events env w.g 11 0 w.nrecv
        ++ [Event.receive_packet (env.recv (w.nrecv + 11)),
            Event.stderr (Msg.retrying 11), Event.stderr (Msg.not_acked 12)]).filter
          is_receive).length = 12 := by
      simp only [List.filter_append, List.length_append, retry_events_receives]
      simp [is_receive, publish_call, List.filter_cons]
    have hpub : (([publish_call w.g] ++ retry_events env w.g 11 0 w.nrecv
        ++ [Event.receive_packet (env.recv (w.nrecv + 11)),
            Event.stderr (Msg.retrying 11), Event.stderr (Msg.not_acked 12)]).filter
          is_publish).length = 12 := by
      simp only [List.filter_append, List.length_append, retry_events_publish,
        List.length_replicate]
      simp [is_publish, publish_call, List.filter_cons]
    refine ⟨12, [publish_call w.g] ++ retry_events env w.g 11 0 w.nrecv
        ++ [Event.receive_packet (env.recv (w.nrecv + 11)),
            Event.stderr (Msg.retrying 11), Event.stderr (Msg.not_acked 12)],
        le_refl _, fun i hi => hfail i (by omega), by rw [hrec], by rw [hpub], ?_, ?_⟩
    · simp only [List.filterMap_append, retry_events_retrying]
      simp [retrying_value, publish_call, List.filterMap_cons]
      decide
    · right
      refine ⟨rfl, hrec, hpub, by simp, ?_⟩
      rw [h]
      simp

/-- Witness of C17: the publish step of `-q 1 -t ab -m x -w ab -W x` against a
gateway that never answers ends, after at most 12 receives and 12 PUBLISH
sends. -/
theorem C17_publish_loop_bounded_witness :
    ∃ (k : Nat) (evs : List Event), k ≤ 12
      ∧ (evs.filter is_receive).length ≤ 12
      ∧ (evs.filter is_publish).length ≤ 12
      ∧ ((k ≤ 11 ∧ ∃ w1, publish (env_of no_recv) (start qos1_globals) = .ok w1
            ∧ w1.trace = (start qos1_globals).trace ++ evs)
        ∨ (k = 12 ∧ publish (env_of no_recv) (start qos1_globals)
            = .error { trace := (start qos1_globals).trace ++ evs,
                       outcome := Outcome.exit (-1) })) :=
  (C17_publish_loop_bounded (env_of no_recv) (start qos1_globals) rfl).elim
    fun k h => h.elim fun evs h2 =>
      ⟨k, evs, h2.1, h2.2.2.1, h2.2.2.2.1,
        h2.2.2.2.2.2.elim
          (fun a => Or.inl ⟨a.1, a.2.2.2.2.elim fun w1 hw => ⟨w1, hw.1, hw.2.1⟩⟩)
          (fun b => Or.inr ⟨b.1, b.2.2.2.2⟩)⟩

end MqttSnPub
